import Mathlib

/-!
Verification of the go2scope micro-manager-plus dataset reader/writer
(`src/python/dataio/g2sdataset/{dataset,reader,writer}.py`) against its
natural-language specification.

The Python modules are shallowly embedded: dictionaries become ordered
association lists (Python 3.7+ dicts preserve insertion order), JSON text is
parsed by an executable parser modelling `json.loads` on the JSON subset the
sidecar files use, exceptions become an explicit `PyErr` sum, and in-place
mutation of writer objects becomes explicit state passing (functions that can
raise after mutating return the state reached at the point of the raise).

Conventions: apostrophes inside source error-message strings are rendered as
plain spaces (for example the source text beginning `Can't create` appears
here as `Can t create`); float literals that no property observes (the
default pixel size 1.0) are modelled as the integer 1.
-/

/-- Model of a Python/JSON value as stored in the metadata dictionaries. -/
inductive Json where
  | null : Json
  | bool (b : Bool) : Json
  | num (n : Int) : Json
  | str (s : String) : Json
  | arr (elems : List Json) : Json
  | obj (fields : List (String × Json)) : Json
deriving Repr

mutual

/-- Structural equality test for `Json` (models Python `==` on parsed JSON). -/
def Json.beq : Json → Json → Bool
  | .null, .null => true
  | .bool a, .bool b => a == b
  | .num a, .num b => a == b
  | .str a, .str b => a == b
  | .arr a, .arr b => Json.beqList a b
  | .obj a, .obj b => Json.beqFields a b
  | _, _ => false

/-- Elementwise equality of JSON arrays. -/
def Json.beqList : List Json → List Json → Bool
  | [], [] => true
  | a :: as, b :: bs => Json.beq a b && Json.beqList as bs
  | _, _ => false

/-- Elementwise equality of JSON object field lists. -/
def Json.beqFields : List (String × Json) → List (String × Json) → Bool
  | [], [] => true
  | (ka, va) :: as, (kb, vb) :: bs => ka == kb && Json.beq va vb && Json.beqFields as bs
  | _, _ => false

end

instance : BEq Json := ⟨Json.beq⟩

mutual

theorem Json.beq_refl : (a : Json) → Json.beq a a = true
  | .null => rfl
  | .bool b => by simp [Json.beq]
  | .num n => by simp [Json.beq]
  | .str s => by simp [Json.beq]
  | .arr xs => by simp [Json.beq, Json.beqList_refl xs]
  | .obj fs => by simp [Json.beq, Json.beqFields_refl fs]

theorem Json.beqList_refl : (xs : List Json) → Json.beqList xs xs = true
  | [] => rfl
  | a :: as => by simp [Json.beqList, Json.beq_refl a, Json.beqList_refl as]

theorem Json.beqFields_refl : (fs : List (String × Json)) → Json.beqFields fs fs = true
  | [] => rfl
  | (k, v) :: fs => by simp [Json.beqFields, Json.beq_refl v, Json.beqFields_refl fs]

end

mutual

theorem Json.eq_of_beq : {a b : Json} → Json.beq a b = true → a = b
  | .null, .null, _ => rfl
  | .bool _, .bool _, h => by simpa [Json.beq] using congrArg Json.bool (by simpa [Json.beq] using h)
  | .num _, .num _, h => by exact congrArg Json.num (by simpa [Json.beq] using h)
  | .str _, .str _, h => by exact congrArg Json.str (by simpa [Json.beq] using h)
  | .arr as, .arr bs, h => by
      exact congrArg Json.arr (Json.eqList_of_beq (by simpa [Json.beq] using h))
  | .obj as, .obj bs, h => by
      exact congrArg Json.obj (Json.eqFields_of_beq (by simpa [Json.beq] using h))

theorem Json.eqList_of_beq : {as bs : List Json} → Json.beqList as bs = true → as = bs
  | [], [], _ => rfl
  | a :: as, b :: bs, h => by
      have h1 : Json.beq a b = true := by
        have := h; simp [Json.beqList] at this; exact this.1
      have h2 : Json.beqList as bs = true := by
        have := h; simp [Json.beqList] at this; exact this.2
      rw [Json.eq_of_beq h1, Json.eqList_of_beq h2]

theorem Json.eqFields_of_beq : {as bs : List (String × Json)} → Json.beqFields as bs = true → as = bs
  | [], [], _ => rfl
  | (ka, va) :: as, (kb, vb) :: bs, h => by
      have hk : ka = kb := by
        have := h; simp [Json.beqFields] at this; exact this.1.1
      have hv : Json.beq va vb = true := by
        have := h; simp [Json.beqFields] at this; exact this.1.2
      have ht : Json.beqFields as bs = true := by
        have := h; simp [Json.beqFields] at this; exact this.2
      rw [hk, Json.eq_of_beq hv, Json.eqFields_of_beq ht]

end

instance : DecidableEq Json := fun a b =>
  if h : Json.beq a b = true then
    .isTrue (Json.eq_of_beq h)
  else
    .isFalse (fun he => h (he ▸ Json.beq_refl a))

/-- Model of the Python exceptions the modules can raise.  `g2s` is the
library's own `G2SDataError`; the others are Python built-in exception
classes that escape unclassified. -/
inductive PyErr where
  | g2s (msg : String) : PyErr
  | keyError (key : String) : PyErr
  | typeError (msg : String) : PyErr
  | valueError (msg : String) : PyErr
  | indexError (msg : String) : PyErr
  | jsonDecode (msg : String) : PyErr
deriving Repr, DecidableEq

/-- Python `str(...)` on an int. -/
def pyStr (n : Int) : String := toString n

/-- Membership test `i in range(n)` for Python ints. -/
def inPyRange (i : Int) (n : Int) : Bool := decide (0 ≤ i) && decide (i < n)

/-- Lookup in an insertion-ordered dict, `d[k]` / `d.get(k)`. -/
def dictLookup (m : List (String × Json)) (k : String) : Option Json :=
  (m.find? (fun p => p.1 == k)).map (·.2)

/-- Python dict assignment `d[k] = v`: updates the existing entry in place
(keeping its position) or appends a new entry at the end. -/
def dictSet (m : List (String × Json)) (k : String) (v : Json) : List (String × Json) :=
  if m.any (fun p => p.1 == k) then
    m.map (fun p => if p.1 == k then (k, v) else p)
  else
    m ++ [(k, v)]

/-- Python `k in d`. -/
def dictHas (m : List (String × Json)) (k : String) : Bool :=
  m.any (fun p => p.1 == k)

/-- Python `int(x)` on a JSON-decoded value. -/
def pyInt : Json → Except PyErr Int
  | .num n => .ok n
  | .bool b => .ok (if b then 1 else 0)
  | .str s =>
      match s.toInt? with
      | some n => .ok n
      | none => .error (.valueError ("invalid literal for int() with base 10: " ++ s))
  | _ => .error (.typeError "int() argument must be a string, a bytes-like object or a number")

/-- Python `s.startswith(pre)`, via character lists (reduces well in the
kernel). -/
def pyStartsWith (s pre : String) : Bool :=
  pre.data.isPrefixOf s.data

/-- Python `s.endswith(suf)`, via character lists. -/
def pyEndsWith (s suf : String) : Bool :=
  suf.data.isSuffixOf s.data

/-- Model of `os.path.join` for the relative two-component joins the modules
perform. -/
def pyJoin (a b : String) : String :=
  if a = "" then b
  else if pyEndsWith a "/" then a ++ b
  else a ++ "/" ++ b

/-- Python `os.path.basename`. -/
def pyBasename (p : String) : String :=
  ((p.splitOn "/").getLast?).getD p

/-- Source `reader.py`, `PosDatasetReader.get_frame_key` (a 3-parameter static
method): the canonical coordinate key `"FrameKey-frame-channel-z_slice"`. -/
def get_frame_key (channel : Int) (z_slice : Int) (frame : Int) : String :=
  "FrameKey" ++ "-" ++ pyStr frame ++ "-" ++ pyStr channel ++ "-" ++ pyStr z_slice

/-- Python-call semantics for `PosDatasetReader.get_frame_key`: the function
has exactly 3 positional parameters, so a call site supplying any other
number of arguments raises `TypeError` before the body runs.  The writer's
`add_image` (writer.py line 217) calls it with 4 arguments. -/
def get_frame_key_call (args : List Int) : Except PyErr String :=
  match args with
  | [c, z, f] => .ok (get_frame_key c z f)
  | _ =>
      .error (.typeError ("get_frame_key() takes 3 positional arguments but " ++
        toString args.length ++ " were given"))

/-- Skip JSON whitespace. -/
def skipWs : List Char → List Char
  | [] => []
  | c :: cs => if c = ' ' ∨ c = '\n' ∨ c = '\t' ∨ c = '\r' then skipWs cs else c :: cs

/-- Span of leading decimal digits. -/
def spanDigits : List Char → (List Char × List Char)
  | [] => ([], [])
  | c :: cs =>
      if c.isDigit then
        let (ds, rest) := spanDigits cs
        (c :: ds, rest)
      else ([], c :: cs)

/-- Value of a digit string. -/
def digitsToNat (ds : List Char) : Nat :=
  ds.foldl (fun a c => a * 10 + (c.toNat - 48)) 0

/-- Decoding of a JSON string escape character. -/
def escChar (e : Char) : Option Char :=
  if e = '"' then some '"'
  else if e = '\\' then some '\\'
  else if e = '/' then some '/'
  else if e = 'n' then some '\n'
  else if e = 't' then some '\t'
  else if e = 'r' then some '\r'
  else none

/-- Parse the body of a JSON string (after the opening quote), returning the
decoded characters and the remaining input. -/
def parseStrBody (fuel : Nat) (cs : List Char) : Except String (List Char × List Char) :=
  match fuel with
  | 0 => .error "out of fuel"
  | f + 1 =>
    match cs with
    | [] => .error "Unterminated string"
    | c :: rest =>
      if c = '"' then .ok ([], rest)
      else if c = '\\' then
        match rest with
        | [] => .error "Unterminated string"
        | e :: rest2 =>
          match escChar e with
          | some ec => do
              let (r, rem) ← parseStrBody f rest2
              .ok (ec :: r, rem)
          | none => .error "Invalid escape"
      else do
        let (r, rem) ← parseStrBody f rest
        .ok (c :: r, rem)

/-- Match an expected literal tail (for `true`, `false`, `null`). -/
def expectLit : List Char → List Char → Option (List Char)
  | [], cs => some cs
  | _, [] => none
  | l :: ls, c :: cs => if l = c then expectLit ls cs else none

mutual

/-- Recursive-descent parser for the JSON subset the sidecar files use
(objects, arrays, strings, integers, booleans, null); models `json.loads`.
Insertion order of object members is preserved and duplicate keys overwrite
in place, as Python dicts do. -/
def parseVal (fuel : Nat) (cs : List Char) : Except String (Json × List Char) :=
  match fuel with
  | 0 => .error "out of fuel"
  | f + 1 =>
    match skipWs cs with
    | [] => .error "Expecting value"
    | c :: rest =>
      if c = '{' then
        match skipWs rest with
        | '}' :: rem => .ok (.obj [], rem)
        | rest2 => parseMembers f rest2 []
      else if c = '[' then
        match skipWs rest with
        | ']' :: rem => .ok (.arr [], rem)
        | rest2 => parseElems f rest2 []
      else if c = '"' then do
        let (s, rem) ← parseStrBody (rest.length + 1) rest
        .ok (.str (String.mk s), rem)
      else if c = 't' then
        match expectLit ['r', 'u', 'e'] rest with
        | some rem => .ok (.bool true, rem)
        | none => .error "Expecting value"
      else if c = 'f' then
        match expectLit ['a', 'l', 's', 'e'] rest with
        | some rem => .ok (.bool false, rem)
        | none => .error "Expecting value"
      else if c = 'n' then
        match expectLit ['u', 'l', 'l'] rest with
        | some rem => .ok (.null, rem)
        | none => .error "Expecting value"
      else if c = '-' then
        match spanDigits rest with
        | ([], _) => .error "Expecting value"
        | (ds, rem) => .ok (.num (-(digitsToNat ds : Int)), rem)
      else if c.isDigit then
        match spanDigits (c :: rest) with
        | (ds, rem) => .ok (.num (digitsToNat ds : Int), rem)
      else .error "Expecting value"

/-- Parse the members of a JSON object after its opening brace. -/
def parseMembers (fuel : Nat) (cs : List Char) (acc : List (String × Json)) :
    Except String (Json × List Char) :=
  match fuel with
  | 0 => .error "out of fuel"
  | f + 1 =>
    match skipWs cs with
    | '"' :: rest => do
        let (k, rem) ← parseStrBody (rest.length + 1) rest
        match skipWs rem with
        | ':' :: rem2 => do
            let (v, rem3) ← parseVal f rem2
            let acc2 := dictSet acc (String.mk k) v
            match skipWs rem3 with
            | ',' :: rem4 => parseMembers f rem4 acc2
            | '}' :: rem4 => .ok (.obj acc2, rem4)
            | _ => .error "Expecting comma delimiter"
        | _ => .error "Expecting colon delimiter"
    | _ => .error "Expecting property name enclosed in double quotes"

/-- Parse the elements of a JSON array after its opening bracket. -/
def parseElems (fuel : Nat) (cs : List Char) (acc : List Json) :
    Except String (Json × List Char) :=
  match fuel with
  | 0 => .error "out of fuel"
  | f + 1 => do
    let (v, rem) ← parseVal f cs
    let acc2 := acc ++ [v]
    match skipWs rem with
    | ',' :: rem2 => parseElems f rem2 acc2
    | ']' :: rem2 => .ok (.arr acc2, rem2)
    | _ => .error "Expecting comma delimiter"

end

/-- Model of `json.loads`: parse one value and require only whitespace after
it. -/
def jsonLoads (s : String) : Except String Json :=
  match parseVal (2 * s.length + 2) s.data with
  | .error e => .error e
  | .ok (v, rem) =>
      match skipWs rem with
      | [] => .ok v
      | _ => .error "Extra data"

/-- Source `reader.py` lines 51-59 (`PosDatasetReader._load_meta`, parse
stage): parse the sidecar text; on a parse failure retry exactly once with a
single closing brace appended; if that also fails the `JSONDecodeError`
propagates (the spec's FORMAT error). -/
def loadMetaText (s : String) : Except PyErr Json :=
  match jsonLoads s with
  | .ok v => .ok v
  | .error _ =>
      match jsonLoads (s ++ "\x7d") with
      | .ok v => .ok v
      | .error e => .error (.jsonDecode e)

/-- Model of a numpy pixel array as the reader/writer observe it: the dtype
name, the shape tuple, and the (flattened) pixel data. -/
structure NpArray where
  dtype : String
  shape : List Int
  data : List Int
deriving Repr, DecidableEq

/-- State of a constructed `PosDatasetReader` (reader.py lines 29-79): the
fields `_load_meta` extracts from the parsed sidecar object, plus the parsed
metadata dict itself.  `channelNames` keeps the raw JSON list elements, as
Python does. -/
structure PosReader where
  path : String
  name : String
  channelNames : List Json
  zSlices : Int
  frames : Int
  positions : Json
  width : Int
  height : Int
  pixelType : Json
  bitDepth : Int
  pixelSizeUm : Json
  metadata : List (String × Json)
deriving Repr, DecidableEq

/-- Extraction of a mandatory summary field (a bare `summary[...]` access;
a missing key raises `KeyError`). -/
def summaryGet (summary : List (String × Json)) (k : String) : Except PyErr Json :=
  match dictLookup summary k with
  | some v => .ok v
  | none => .error (.keyError k)

/-- Extraction of a mandatory integral summary field.  Python stores the raw
JSON value and would only fail later at its use sites; the claims under
study always present well-typed summaries, for which this is equivalent. -/
def summaryGetInt (summary : List (String × Json)) (k : String) : Except PyErr Int := do
  match ← summaryGet summary k with
  | .num n => .ok n
  | _ => .error (.typeError ("summary field is not an int: " ++ k))

/-- Source `reader.py` lines 47-79 (`PosDatasetReader._load_meta` after the
parse stage modelled by `loadMetaText`): extract the summary fields, with
the `Prefix` name falling back to the directory base name and `PixelSize_um`
and `BitDepth` optional. -/
def mkPosReader (path : String) (fileText : String) : Except PyErr PosReader := do
  let md ← loadMetaText fileText
  let fields ←
    match md with
    | .obj fields => .ok fields
    | _ => .error (.typeError "metadata is not an object")
  let summaryJ ← summaryGet fields "Summary"
  let summary ←
    match summaryJ with
    | .obj s => .ok s
    | _ => .error (.typeError "summary is not an object")
  let name :=
    match dictLookup summary "Prefix" with
    | some (.str s) => s
    | _ => pyBasename path
  let pixelSize :=
    match dictLookup summary "PixelSize_um" with
    | some v => v
    | none => .num 1
  let chJ ← summaryGet summary "ChNames"
  let channelNames ←
    match chJ with
    | .arr l => .ok l
    | _ => .error (.typeError "ChNames is not a list")
  let zSlices ← summaryGetInt summary "Slices"
  let frames ← summaryGetInt summary "Frames"
  let positions ← summaryGet summary "Positions"
  let width ← summaryGetInt summary "Width"
  let height ← summaryGetInt summary "Height"
  let pixelType ← summaryGet summary "PixelType"
  let bitDepth ←
    match dictLookup summary "BitDepth" with
    | some (.num n) => .ok n
    | some _ => .error (.typeError "BitDepth is not an int")
    | none => .ok 0
  .ok {
    path := path
    name := name
    channelNames := channelNames
    zSlices := zSlices
    frames := frames
    positions := positions
    width := width
    height := height
    pixelType := pixelType
    bitDepth := bitDepth
    pixelSizeUm := pixelSize
    metadata := fields
  }

/-- Source `reader.py` lines 131-138 (`PosDatasetReader._get_channel_index`):
a non-empty channel name is resolved by `list.index` (first exact match),
with a missing name reported as a `G2SDataError`; otherwise the numeric
index is passed through unchecked. -/
def getChannelIndex (r : PosReader) (cindex : Int) (cname : String) : Except PyErr Int :=
  if cname ≠ "" then
    match r.channelNames.findIdx? (fun j => j == Json.str cname) with
    | some i => .ok (i : Int)
    | none => .error (.g2s ("Invalid channel name: " ++ cname))
  else
    .ok cindex

/-- Coordinate range test shared by `image_metadata` and `image_pixels`
(reader.py lines 142-143 and 155-156). -/
def coordsValid (r : PosReader) (ch z t : Int) : Bool :=
  inPyRange ch r.channelNames.length && inPyRange z r.zSlices && inPyRange t r.frames

/-- Error message of the coordinate validation failure. -/
def invalidCoordMsg (ch z t : Int) : String :=
  "Invalid image coordinates: channel=" ++ pyStr ch ++ ", slice=" ++ pyStr z ++
    ", frame=" ++ pyStr t

/-- Source `reader.py` lines 140-151 (`PosDatasetReader.image_metadata`):
resolve the channel, validate all three coordinates, then probe the metadata
dict; the probe is wrapped in try/except, so a missing key is re-raised as a
`G2SDataError` carrying the `KeyError`'s string (the quoted key). -/
def imageMetadata (r : PosReader) (channel_index : Int) (channel_name : String)
    (z_index t_index : Int) : Except PyErr Json := do
  let ch ← getChannelIndex r channel_index channel_name
  if ¬ coordsValid r ch z_index t_index then
    .error (.g2s (invalidCoordMsg ch z_index t_index))
  else
    match dictLookup r.metadata (get_frame_key ch z_index t_index) with
    | some md => .ok md
    | none =>
        .error (.g2s ("Frame key not available in metadata: " ++
          get_frame_key ch z_index t_index))

/-- Source `reader.py` lines 153-164 (`PosDatasetReader.image_pixels`):
resolve the channel and validate coordinates exactly as `image_metadata`
does, but probe the dict with the RAW `channel_index` parameter (not the
resolved index) and with no try/except, so a missing key escapes as a bare
`KeyError`; then fetch the referenced file (`cv2.imread`, modelled by the
`storage` association), failing with a `G2SDataError` when it yields
nothing. -/
def imagePixels (r : PosReader) (storage : List (String × NpArray))
    (channel_index : Int) (channel_name : String) (z_index t_index : Int) :
    Except PyErr NpArray := do
  let ch ← getChannelIndex r channel_index channel_name
  if ¬ coordsValid r ch z_index t_index then
    .error (.g2s (invalidCoordMsg ch z_index t_index))
  else do
    let key := get_frame_key channel_index z_index t_index
    let record ←
      match dictLookup r.metadata key with
      | some record => .ok record
      | none => .error (.keyError key)
    let fnameJ ←
      match record with
      | .obj f =>
          match dictLookup f "FileName" with
          | some v => .ok v
          | none => .error (.keyError "FileName")
      | _ => .error (.typeError "image record is not an object")
    let fname ←
      match fnameJ with
      | .str s => .ok s
      | _ => .error (.typeError "join() argument must be str")
    let ipath := pyJoin r.path fname
    match (storage.find? (fun p => p.1 == ipath)).map (·.2) with
    | some img => .ok img
    | none => .error (.g2s ("Invalid image reference: " ++ ipath))

/-- Source `reader.py` lines 116-126 (`PosDatasetReader.position_index`):
scan the metadata dict in insertion order for the first key starting with
`"FrameKey"` and return `int(...)` of that record's `PositionIndex` field (a
bare dict access: if that first record lacks the field, the `KeyError`
escapes and no later record is consulted); only when no key starts with
`"FrameKey"` is a `G2SDataError` raised. -/
def positionIndexScan : List (String × Json) → Except PyErr Int
  | [] => .error (.g2s "Position index not available in image metadata.")
  | (k, v) :: rest =>
      if pyStartsWith k "FrameKey" then
        match v with
        | .obj f =>
            match dictLookup f "PositionIndex" with
            | some x => pyInt x
            | none => .error (.keyError "PositionIndex")
        | _ => .error (.typeError "image record is not an object")
      else positionIndexScan rest

/-- Entry point of the `position_index` scan over a reader's metadata. -/
def positionIndex (r : PosReader) : Except PyErr Int :=
  positionIndexScan r.metadata

/-- Python list item assignment `l[i] = x`: indices in `[0, len)` assign
directly, indices in `[-len, 0)` wrap from the end, anything else raises
`IndexError`. -/
def pyListSet {α : Type} (l : List α) (i : Int) (x : α) : Except PyErr (List α) :=
  let n : Int := l.length
  if 0 ≤ i ∧ i < n then .ok (l.set i.toNat x)
  else if -n ≤ i ∧ i < 0 then .ok (l.set (i + n).toNat x)
  else .error (.indexError "list assignment index out of range")

/-- One iteration of the `DatasetReader._load_meta` loop (reader.py lines
183-185): recover the position reader's own index and store the reader at
that slot of the positions list. -/
def placePosition (acc : List (Option PosReader)) (r : PosReader) :
    Except PyErr (List (Option PosReader)) := do
  let i ← positionIndex r
  pyListSet acc i (some r)

/-- Source `reader.py` lines 177-189 (`DatasetReader._load_meta`): allocate
one slot per enumerated subdirectory and place each position reader at the
slot given by its recovered `position_index()`.  The input list carries the
per-subdirectory readers in directory-listing order. -/
def buildPositions (readers : List PosReader) : Except PyErr (List (Option PosReader)) :=
  readers.foldlM placePosition (List.replicate readers.length (none : Option PosReader))

/-- Source `reader.py` lines 177-189 including the final emptiness check:
zero qualifying subdirectories fail with the dataset-not-identified
`G2SDataError`. -/
def datasetReaderLoad (path : String) (readers : List PosReader) :
    Except PyErr (List (Option PosReader)) := do
  let ps ← buildPositions readers
  if ps.length = 0 then
    .error (.g2s ("Micro-manager data set not identified in " ++ path))
  else
    .ok ps

/-- Python list item read `l[i]` with negative-index wrap and `IndexError`. -/
def pyListGet {α : Type} (l : List α) (i : Int) : Except PyErr α :=
  let n : Int := l.length
  if 0 ≤ i ∧ i < n then
    match l.get? i.toNat with
    | some x => .ok x
    | none => .error (.indexError "list index out of range")
  else if -n ≤ i ∧ i < 0 then
    match l.get? (i + n).toNat with
    | some x => .ok x
    | none => .error (.indexError "list index out of range")
  else .error (.indexError "list index out of range")

/-- Modelled from the spec: `ChannelDef` is imported by writer.py from
dataset.py, but its class definition is absent from the source tree (only
its callers are present).  The spec data model (section 3) defines a channel
as a name (string) plus a display color (integer RGB); the one-argument
calls in writer.py default the color. -/
structure ChannelDef where
  name : String
  color : Int := 0
deriving Repr, DecidableEq

/-- Modelled from the spec: the `SummaryMeta` attributes `TIME_FIRST`,
`SLICES_FIRST`, `NUMBER_OF_COMPONENTS`, `UUID`, `VERSION`, `COMPUTER_NAME`
and `USER_NAME` are referenced by `writer.py` (`_create_summary_meta` and
`add_image`) but absent from the `dataset.py` in the source tree.  The spec
(sections 4.3 and 6, design note on process identity fields) lists these
summary fields; their exact key strings are not observed by any claim, so
plausible micro-manager spellings are used. -/
def extraSummaryKeyNames : List String :=
  ["TimeFirst", "SlicesFirst", "NumComponents", "UUID", "MetadataVersion",
   "ComputerName", "UserName"]

/-- State of a `PosDatasetWriter` (writer.py lines 31-60).  Fields that
`close()` sets to `None` are `Option`-typed.  The ambient process identity
values (`uuid.uuid1()`, hostname, user) are constructor parameters. -/
structure PosWriterState where
  path : Option String
  name : Option String
  zSlices : Int
  channelDefs : List ChannelDef
  frames : Int
  positions : Int
  width : Int
  height : Int
  pixelType : String
  numComponents : Int
  bitDepth : Int
  pixelSizeUm : Json
  summaryMeta : Option (List (String × Json))
  meta : Option (List (String × Json))
  additionalSummaryMeta : List (String × Json)
  timeFirst : Bool
  slicesFirst : Bool
  uuid : String
  computerName : String
  userName : String
  metaVersion : Int
deriving Repr, DecidableEq

/-- Source `writer.py` lines 31-60 (`PosDatasetWriter.__init__`); the float
default pixel size 1.0 is modelled as the number 1 (no claim observes float
semantics). -/
def posWriterInit (uuid computerName userName : String) : PosWriterState :=
  { path := some ""
    name := some ""
    zSlices := 0
    channelDefs := []
    frames := 0
    positions := 0
    width := 0
    height := 0
    pixelType := "NONE"
    numComponents := 1
    bitDepth := 0
    pixelSizeUm := .num 1
    summaryMeta := some []
    meta := some []
    additionalSummaryMeta := []
    timeFirst := true
    slicesFirst := false
    uuid := uuid
    computerName := computerName
    userName := userName
    metaVersion := 9 }

/-- Source `writer.py` lines 62-83 (`PosDatasetWriter.open`): record path and
name, fail if the position directory already exists (`dirExists` models the
`os.path.exists` probe), then declare the coordinate ranges and default
channel definitions. -/
def posOpen (s : PosWriterState) (dirExists : Bool) (root_path name : String)
    (positions channels z_slices frames : Int)
    (additional_meta : Option (List (String × Json))) : Except PyErr PosWriterState :=
  let s := { s with
    path := some root_path
    name := some name
    additionalSummaryMeta :=
      match additional_meta with
      | some l => if l ≠ [] then l else s.additionalSummaryMeta
      | none => s.additionalSummaryMeta }
  if dirExists then
    .error (.g2s ("Can t create position directory, one already exists: " ++
      pyJoin root_path name))
  else
    .ok { s with
      positions := positions
      channelDefs := (List.range channels.toNat).map
        (fun i => { name := "Channel-" ++ pyStr (i : Int), color := 0 })
      zSlices := z_slices
      frames := frames
      pixelSizeUm := .num 1 }

/-- Source `writer.py` lines 85-93 (`PosDatasetWriter.initialize`): fix the
image format exactly once; a repeat call with any of width, height or pixel
type already set fails. -/
def posInitDims (s : PosWriterState) (width height : Int) (pixel_type : String)
    (bit_depth : Int) (num_components : Int) : Except PyErr PosWriterState :=
  if s.width ≠ 0 ∨ s.height ≠ 0 ∨ s.pixelType ≠ "NONE" then
    .error (.g2s "Dataset dimensions are already defined")
  else
    .ok { s with
      width := width
      height := height
      pixelType := pixel_type
      bitDepth := bit_depth
      numComponents := num_components }

/-- Source `writer.py` lines 115-120 (`PosDatasetWriter.set_pixel_size`). -/
def posSetPixelSize (s : PosWriterState) (v : Json) : PosWriterState :=
  { s with pixelSizeUm := v }

/-- Source `writer.py` lines 122-130 (`PosDatasetWriter.set_channel_data`). -/
def posSetChannelData (s : PosWriterState) (channel_data : List ChannelDef) :
    Except PyErr PosWriterState :=
  if s.channelDefs.length = channel_data.length then
    .ok { s with channelDefs := channel_data }
  else
    .error (.g2s "Channel names array size does not match existing data")

/-- Source `writer.py` lines 108-113 (`PosDatasetWriter.save_metadata`):
serialize the metadata dict to the sidecar file.  `os.path.join` raises
`TypeError` when path or name is `None` (after `close`); `json.dumps(None)`
itself would succeed, producing `null`.  Returns the written file path and
serialized value. -/
def saveMetadata (s : PosWriterState) : Except PyErr (String × Json) :=
  match s.path, s.name with
  | some p, some n =>
      .ok (pyJoin (pyJoin p n) "metadata.txt",
        match s.meta with
        | some m => Json.obj m
        | none => Json.null)
  | _, _ => .error (.typeError "join() argument must be str, not NoneType")

/-- Source `writer.py` lines 95-103 (`PosDatasetWriter.close`): persist the
metadata, then clear the metadata dicts, path and name to `None`. -/
def posClose (s : PosWriterState) : PosWriterState × Except PyErr Unit :=
  match saveMetadata s with
  | .error e => (s, .error e)
  | .ok _ =>
      ({ s with meta := none, summaryMeta := none, path := none, name := none }, .ok ())

/-- Source `writer.py` lines 224-248 (`PosDatasetWriter._create_summary_meta`):
build the summary block by mutating the `additional summary` dict in place
(the source aliases it). -/
def createSummaryMeta (s : PosWriterState) : List (String × Json) :=
  let sm := s.additionalSummaryMeta
  let sm := dictSet sm "Prefix" (match s.name with | some n => .str n | none => .null)
  let sm := dictSet sm "Source" (.str "G2SDataset")
  let sm := dictSet sm "Width" (.num s.width)
  let sm := dictSet sm "Height" (.num s.height)
  let sm := dictSet sm "PixelType" (.str s.pixelType)
  let sm := dictSet sm "PixelSize_um" s.pixelSizeUm
  let sm := dictSet sm "BitDepth" (.num s.bitDepth)
  let sm := dictSet sm "PixelAspect" (.num 1)
  let sm := dictSet sm "Positions" (.num s.positions)
  let sm := dictSet sm "Channels" (.num s.channelDefs.length)
  let sm := dictSet sm "ChNames" (.arr (s.channelDefs.map (fun cd => .str cd.name)))
  let sm := dictSet sm "Colors" (.arr (s.channelDefs.map (fun cd => .num cd.color)))
  let sm := dictSet sm "Slices" (.num s.zSlices)
  let sm := dictSet sm "Frames" (.num s.frames)
  let sm := dictSet sm "TimeFirst" (.bool s.timeFirst)
  let sm := dictSet sm "SlicesFirst" (.bool s.slicesFirst)
  let sm := dictSet sm "NumComponents" (.num s.numComponents)
  let sm := dictSet sm "UUID" (.str s.uuid)
  let sm := dictSet sm "MetadataVersion" (.num s.metaVersion)
  let sm := dictSet sm "ComputerName" (.str s.computerName)
  let sm := dictSet sm "UserName" (.str s.userName)
  sm

/-- Zero-padded decimal rendering, Python `"%0Nd" % n`. -/
def pad0 (width : Nat) (n : Int) : String :=
  if n < 0 then
    let digits := toString (-n).toNat
    "-" ++ String.mk (List.replicate (width - 1 - digits.length) '0') ++ digits
  else
    let digits := toString n.toNat
    String.mk (List.replicate (width - digits.length) '0') ++ digits

/-- Source `writer.py` line 211: the deterministic image file name
`"img_%09d_%s_%03d.tif" % (frame, channel_name, z_slice)`. -/
def imgFileName (frame : Int) (chName : String) (z_slice : Int) : String :=
  "img_" ++ pad0 9 frame ++ "_" ++ chName ++ "_" ++ pad0 3 z_slice ++ ".tif"

/-- numpy itemsize of the dtypes `add_image` accepts. -/
def npItemsize (dtype : String) : Int :=
  if dtype = "uint8" then 1
  else if dtype = "uint16" then 2
  else if dtype = "uint32" then 4
  else 1

/-- Continuation of `add_image` after summary materialization (writer.py
lines 188-222): build the image record, compute the file name, then compute
the frame key — a 4-argument call to the 3-parameter `get_frame_key`, which
raises `TypeError` — and (in the unreachable remainder) store the record and
write the image file (`imwriteOk` models the `cv2.imwrite` result). -/
def posAddImageRest (s : PosWriterState) (position channel z_slice frame : Int)
    (additional_meta : Option (List (String × Json))) (freshUuid : String)
    (imwriteOk : Bool) : PosWriterState × Except PyErr Unit :=
  let image_meta0 := match additional_meta with | some l => l | none => []
  match s.channelDefs.get? channel.toNat with
  | none => (s, .error (.indexError "list index out of range"))
  | some cd =>
    let im := dictSet image_meta0 "Width" (.num s.width)
    let im := dictSet im "Height" (.num s.height)
    let im := dictSet im "Channel" (.num channel)
    let im := dictSet im "ChannelIndex" (.num channel)
    let im := dictSet im "Channel" (.str cd.name)
    let im := dictSet im "PositionIndex" (.num position)
    let im := dictSet im "Frame" (.num frame)
    let im := dictSet im "FrameIndex" (.num frame)
    let im := dictSet im "Slice" (.num z_slice)
    let im := dictSet im "SliceIndex" (.num z_slice)
    let im := dictSet im "PixelType" (.str s.pixelType)
    let im := dictSet im "PixelSize_um" s.pixelSizeUm
    let im := dictSet im "BitDepth" (.num s.bitDepth)
    let im := if dictHas im "UUID" then im else dictSet im "UUID" (.str freshUuid)
    let im := if dictHas im "PositionName" then im
              else dictSet im "PositionName" (.str ("Pos-" ++ pyStr position))
    let fileName := imgFileName frame cd.name z_slice
    let im := dictSet im "FileName" (.str fileName)
    match get_frame_key_call [position, channel, z_slice, frame] with
    | .error e => (s, .error e)
    | .ok key =>
      match s.meta with
      | none => (s, .error (.typeError "NoneType object does not support item assignment"))
      | some m =>
        let s := { s with meta := some (dictSet m key (.obj im)) }
        match s.path, s.name with
        | some p, some n =>
            let full := pyJoin (pyJoin p n) fileName
            if imwriteOk then (s, .ok ())
            else (s, .error (.g2s ("Image write failed: " ++ full)))
        | _, _ => (s, .error (.typeError "join() argument must be str, not NoneType"))

/-- Source `writer.py` lines 132-222 (`PosDatasetWriter.add_image`).  The
function mutates the writer in place, so it returns the state reached at the
point of any raise together with the outcome.  Steps in source order: reset
component count, infer the pixel type from dtype and shape, compare against
the fixed pixel type, check image dimensions, check all four coordinates,
default the bit depth, materialize the summary block into the metadata dict
on first use, then continue with `posAddImageRest`. -/
def posAddImage (s : PosWriterState) (pixels : NpArray)
    (position channel z_slice frame : Int)
    (additional_meta : Option (List (String × Json))) (freshUuid : String)
    (imwriteOk : Bool) : PosWriterState × Except PyErr Unit :=
  let s := { s with numComponents := 1 }
  let pixtypeR : Except PyErr String :=
    if pixels.dtype = "uint8" then .ok "GRAY8"
    else if pixels.dtype = "uint16" then .ok "GRAY16"
    else if pixels.dtype = "uint32" then
      if pixels.shape.length = 4 then .ok "RGB32"
      else if pixels.shape.length = 2 then .ok "GRAY32"
      else .error (.g2s ("Unsupported number of components in np.array type: " ++ pixels.dtype))
    else .error (.g2s ("Unsupported np.array type: " ++ pixels.dtype))
  match pixtypeR with
  | .error e => (s, .error e)
  | .ok pixtype =>
    if s.pixelType ≠ pixtype then
      (s, .error (.g2s "Pixel type does not match existing data"))
    else
      match pixels.shape.get? 0, pixels.shape.get? 1 with
      | some h, some w =>
        if s.width ≠ w ∨ s.height ≠ h then
          (s, .error (.g2s "Image dimensions do not match existing data"))
        else if ¬ (inPyRange channel s.channelDefs.length && inPyRange z_slice s.zSlices &&
                   inPyRange position s.positions && inPyRange frame s.frames) then
          (s, .error (.g2s "Image coordinates are not valid"))
        else
          let s := if s.bitDepth = 0 then
              { s with bitDepth :=
                  if pixels.shape.length = 2 then npItemsize pixels.dtype * 8 else 8 }
            else s
          let needSummary := match s.summaryMeta with
            | some (_ :: _) => false
            | _ => true
          if needSummary then
            let summ := createSummaryMeta s
            let s := { s with additionalSummaryMeta := summ, summaryMeta := some summ }
            match s.meta with
            | none => (s, .error (.typeError "NoneType object does not support item assignment"))
            | some m =>
              let s := { s with meta := some (dictSet m "Summary" (.obj summ)) }
              posAddImageRest s position channel z_slice frame additional_meta freshUuid imwriteOk
          else
            posAddImageRest s position channel z_slice frame additional_meta freshUuid imwriteOk
      | _, _ => (s, .error (.indexError "tuple index out of range"))

/-- One entry of a directory listing as the overwrite guard observes it:
its name, whether it is a subdirectory, and whether the path
`dsdir/name/metadata.txt` exists (necessarily false for a non-directory
entry on a real filesystem). -/
structure FsEntry where
  name : String
  isSubdir : Bool
  hasMetadataFile : Bool
deriving Repr, DecidableEq

/-- The state of the target dataset directory as `DatasetWriter.open`
probes it: whether the path exists, whether it is a directory, and its
listing in `os.listdir` order. -/
structure DsDirState where
  pathExists : Bool
  isDir : Bool
  entries : List FsEntry
deriving Repr, DecidableEq

/-- Outcome of the directory-preparation phase of `DatasetWriter.open`. -/
inductive OpenOutcome where
  | deletedAndCreated : OpenOutcome
  | createdFresh : OpenOutcome
deriving Repr, DecidableEq

/-- Source `writer.py` lines 301-322 (`DatasetWriter.open`, directory
phase): with `overwrite` set and an existing path, refuse non-directories,
refuse an empty listing, and probe `metadata.txt` under the FIRST listed
entry only; if that file exists, recursively delete and recreate the
directory.  Without `overwrite`, an existing path is an error. -/
def dsWriterOpenOverwrite (st : DsDirState) (overwrite : Bool) (dsDir : String) :
    Except PyErr OpenOutcome :=
  if overwrite then
    if st.pathExists then
      if ¬ st.isDir then
        .error (.g2s ("We can t overwrite non-directory path: " ++ dsDir))
      else
        match st.entries with
        | [] => .error (.g2s ("Doesn t look like dataset path so we can t overwrite: " ++ dsDir))
        | e :: _ =>
            if e.hasMetadataFile then .ok .deletedAndCreated
            else .error (.g2s ("Can t find metadata.txt, so we can t overwrite: " ++ dsDir))
    else .ok .createdFresh
  else
    if st.pathExists then .error (.g2s ("Directory already exists: " ++ dsDir))
    else .ok .createdFresh

/-- State of a `DatasetWriter` (writer.py lines 253-270). -/
structure DsWriterState where
  numberOfComponents : Int
  positions : List (Option PosWriterState)
  rootPath : Option String
  name : Option String
  channelDefs : List ChannelDef
  zSlices : Int
  frames : Int
  additionalSummaryMeta : List (String × Json)
  pixelType : String
  width : Int
  height : Int
  bitDepth : Int
  pixSizeUm : Json
deriving Repr, DecidableEq

/-- Source `writer.py` lines 253-270 (`DatasetWriter.__init__`). -/
def dsWriterInit : DsWriterState :=
  { numberOfComponents := 1
    positions := []
    rootPath := some ""
    name := some ""
    channelDefs := []
    zSlices := 0
    frames := 0
    additionalSummaryMeta := []
    pixelType := "NONE"
    width := 0
    height := 0
    bitDepth := 0
    pixSizeUm := .num 1 }

/-- Source `writer.py` lines 275-322 (`DatasetWriter.open`): record the
shape and names, then run the directory-preparation phase. -/
def dsOpen (w : DsWriterState) (fs : DsDirState) (root_path name : String)
    (positions channels z_slices frames : Int) (overwrite : Bool)
    (additional_meta : Option (List (String × Json))) : Except PyErr DsWriterState := do
  let w := { w with
    positions := List.replicate positions.toNat (none : Option PosWriterState)
    rootPath := some root_path
    name := some name
    channelDefs := (List.range channels.toNat).map
      (fun c => { name := "Channel-" ++ pyStr (c : Int), color := 0 })
    zSlices := z_slices
    frames := frames
    additionalSummaryMeta :=
      match additional_meta with
      | some l => if l ≠ [] then l else []
      | none => [] }
  let _ ← dsWriterOpenOverwrite fs overwrite (pyJoin root_path name)
  .ok w

/-- Source `writer.py` lines 324-354 (`DatasetWriter.initialize`): fix the
image format once and default the bit depth per pixel type when 0. -/
def dsInitDims (w : DsWriterState) (width height : Int) (pixel_type : String)
    (bit_depth : Int) : Except PyErr DsWriterState :=
  if w.width ≠ 0 ∨ w.height ≠ 0 ∨ w.pixelType ≠ "NONE" then
    .error (.g2s "Dataset dimensions are already defined")
  else
    let w := { w with
      width := width
      height := height
      pixelType := pixel_type
      bitDepth := bit_depth
      numberOfComponents := 1 }
    if w.bitDepth = 0 then
      if pixel_type = "GRAY8" then .ok { w with bitDepth := 8 }
      else if pixel_type = "GRAY16" then .ok { w with bitDepth := 16 }
      else if pixel_type = "RGB32" then .ok { w with bitDepth := 256, numberOfComponents := 4 }
      else if pixel_type = "RGB64" then .ok { w with bitDepth := 16, numberOfComponents := 4 }
      else if pixel_type = "GRAY32" then .ok { w with bitDepth := 32 }
      else .error (.g2s ("Unsupported pixel type: " ++ pixel_type))
    else .ok w

/-- Source `writer.py` lines 356-364 (`DatasetWriter.set_channel_data`). -/
def dsSetChannelData (w : DsWriterState) (channel_data : List ChannelDef) :
    Except PyErr DsWriterState :=
  if w.channelDefs.length = channel_data.length then
    .ok { w with channelDefs := channel_data }
  else
    .error (.g2s "Channel names array size does not match existing data")

/-- Source `writer.py` lines 366-371 (`DatasetWriter.set_pixel_size`). -/
def dsSetPixelSize (w : DsWriterState) (v : Json) : DsWriterState :=
  { w with pixSizeUm := v }

/-- Delegation step of `DatasetWriter.add_image` (writer.py lines 409-410):
call the position writer and persist its in-place mutation back into the
positions slot. -/
def dsDelegateAdd (w : DsWriterState) (pos_ds : PosWriterState) (px : NpArray)
    (position channel z_slice frame : Int)
    (additional_meta : Option (List (String × Json))) (imgUuid : String)
    (imwriteOk : Bool) : DsWriterState × Except PyErr Unit :=
  let (s2, r) := posAddImage pos_ds px position channel z_slice frame additional_meta
    imgUuid imwriteOk
  match pyListSet w.positions position (some s2) with
  | .ok ps => ({ w with positions := ps }, r)
  | .error e => (w, .error e)

/-- Source `writer.py` lines 373-410 (`DatasetWriter.add_image`): on a
not-yet-seen position index, lazily construct, open, initialize and
configure the position writer, store it in the slot, then delegate; on a
known position, check any supplied position name against the assigned one
(message text as in the source), then delegate. -/
def dsAddImage (w : DsWriterState) (px : NpArray) (position : Int)
    (position_name : String) (channel z_slice frame : Int)
    (additional_meta : Option (List (String × Json)))
    (posUuid computerName userName imgUuid : String)
    (imwriteOk posDirExists : Bool) : DsWriterState × Except PyErr Unit :=
  match pyListGet w.positions position with
  | .error e => (w, .error e)
  | .ok (some pos_ds) =>
      if position_name ≠ "" ∧ pos_ds.name ≠ some position_name then
        (w, .error (.g2s ("Position name does not mach existing one: " ++ position_name)))
      else
        dsDelegateAdd w pos_ds px position channel z_slice frame additional_meta imgUuid imwriteOk
  | .ok none =>
      let pos_name := if position_name ≠ "" then position_name else "Pos-" ++ pyStr position
      match w.rootPath, w.name with
      | some rp, some nm =>
        match posOpen (posWriterInit posUuid computerName userName) posDirExists
            (pyJoin rp nm) pos_name (w.positions.length) (w.channelDefs.length)
            w.zSlices w.frames (some w.additionalSummaryMeta) with
        | .error e => (w, .error e)
        | .ok s1 =>
          match px.shape.get? 0, px.shape.get? 1 with
          | some h, some w2 =>
            (match posInitDims s1 w2 h w.pixelType w.bitDepth w.numberOfComponents with
             | .error e => (w, .error e)
             | .ok s2 =>
               match posSetChannelData s2 w.channelDefs with
               | .error e => (w, .error e)
               | .ok s3 =>
                 let s4 := posSetPixelSize s3 w.pixSizeUm
                 match pyListSet w.positions position (some s4) with
                 | .error e => (w, .error e)
                 | .ok ps =>
                   dsDelegateAdd { w with positions := ps } s4 px position channel z_slice
                     frame additional_meta imgUuid imwriteOk)
          | _, _ => (w, .error (.indexError "tuple index out of range"))
      | _, _ => (w, .error (.typeError "join() argument must be str, not NoneType"))

set_option maxRecDepth 20000

/-- A well-formed sidecar text, used as the concrete repair scenario. -/
def sampleSidecarText : String :=
  "\x7b\"Summary\": \x7b\"Prefix\": \"Pos-0\", \"ChNames\": [\"DAPI\"], \"Slices\": 1, \"Frames\": 1, \"Positions\": 1, \"Width\": 2, \"Height\": 2, \"PixelType\": \"GRAY8\"\x7d, \"FrameKey-0-0-0\": \x7b\"FileName\": \"img_000000000_DAPI_000.tif\", \"PositionIndex\": 0\x7d\x7d"

/-- The value `sampleSidecarText` parses to. -/
def sampleSidecarJson : Json :=
  .obj
  [("Summary",
    .obj
      [("Prefix", .str "Pos-0"),
       ("ChNames", .arr [.str "DAPI"]),
       ("Slices", .num 1),
       ("Frames", .num 1),
       ("Positions", .num 1),
       ("Width", .num 2),
       ("Height", .num 2),
       ("PixelType", .str "GRAY8")]),
   ("FrameKey-0-0-0",
    .obj [("FileName", .str "img_000000000_DAPI_000.tif"), ("PositionIndex", .num 0)])]

/-- A sidecar text corrupted by a mismatched quote (the quote closing the
field name `Width` is missing), which no single appended brace can repair. -/
def mismatchedQuoteText : String :=
  "\x7b\"Summary\": \x7b\"Width: 2\x7d\x7d"

/-- Claim C4: the sidecar load of `PosDatasetReader` first attempts to parse
the text; if parsing fails it retries exactly once with a single closing
brace appended (so a text whose only corruption is a stripped final closing
delimiter parses to the same value as the original), and if the retry also
fails the parse error propagates as the FORMAT error. -/
theorem c4_truncated_sidecar_repair :
    (∀ s v, jsonLoads s = Except.ok v → loadMetaText s = Except.ok v) ∧
    (∀ s e v, jsonLoads s = Except.error e → jsonLoads (s ++ "\x7d") = Except.ok v →
      loadMetaText s = Except.ok v) ∧
    (∀ s e e2, jsonLoads s = Except.error e → jsonLoads (s ++ "\x7d") = Except.error e2 →
      loadMetaText s = Except.error (PyErr.jsonDecode e2)) := by
  refine ⟨?_, ?_, ?_⟩
  · intro s v h
    simp [loadMetaText, h]
  · intro s e v h1 h2
    simp [loadMetaText, h1, h2]
  · intro s e e2 h1 h2
    simp [loadMetaText, h1, h2]

/-- Witness for C4: the sample sidecar with its final closing brace stripped
loads to the original value, and the mismatched-quote sample fails with the
FORMAT error. -/
theorem c4_truncated_sidecar_repair_witness :
    loadMetaText (sampleSidecarText.dropRight 1) = Except.ok sampleSidecarJson ∧
    loadMetaText mismatchedQuoteText = Except.error (PyErr.jsonDecode "Unterminated string") := by
  constructor
  · exact c4_truncated_sidecar_repair.2.1 (sampleSidecarText.dropRight 1)
      "Expecting comma delimiter" sampleSidecarJson (by rfl) (by rfl)
  · exact c4_truncated_sidecar_repair.2.2 mismatchedQuoteText
      "Unterminated string" "Unterminated string" (by rfl) (by rfl)

/-- Specification of the `position_index` scan in terms of the first
`FrameKey`-prefixed entry of the metadata dict. -/
theorem positionIndexScan_spec (m : List (String × Json)) :
    (m.find? (fun p => pyStartsWith p.1 "FrameKey") = none →
      positionIndexScan m = .error (.g2s "Position index not available in image metadata.")) ∧
    (∀ k f x, m.find? (fun p => pyStartsWith p.1 "FrameKey") = some (k, Json.obj f) →
      dictLookup f "PositionIndex" = some x → positionIndexScan m = pyInt x) ∧
    (∀ k f, m.find? (fun p => pyStartsWith p.1 "FrameKey") = some (k, Json.obj f) →
      dictLookup f "PositionIndex" = none →
      positionIndexScan m = .error (.keyError "PositionIndex")) := by
  induction m with
  | nil =>
      refine ⟨fun _ => rfl, ?_, ?_⟩
      · intro k f x h _
        simp at h
      · intro k f h _
        simp at h
  | cons p rest ih =>
      obtain ⟨k0, v0⟩ := p
      by_cases hk : pyStartsWith k0 "FrameKey" = true
      · have hfind : List.find? (fun q => pyStartsWith q.1 "FrameKey") ((k0, v0) :: rest)
            = some (k0, v0) := List.find?_cons_of_pos _ hk
        refine ⟨?_, ?_, ?_⟩
        · intro h
          rw [hfind] at h
          exact absurd h (by simp)
        · intro k f x h hlook
          rw [hfind] at h
          have h2 := Option.some.inj h
          have hv : v0 = Json.obj f := congrArg Prod.snd h2
          subst hv
          simp [positionIndexScan, hk, hlook]
        · intro k f h hlook
          rw [hfind] at h
          have h2 := Option.some.inj h
          have hv : v0 = Json.obj f := congrArg Prod.snd h2
          subst hv
          simp [positionIndexScan, hk, hlook]
      · have hk2 : pyStartsWith k0 "FrameKey" = false := by
          simpa using hk
        have hfind : List.find? (fun q => pyStartsWith q.1 "FrameKey") ((k0, v0) :: rest)
            = List.find? (fun q => pyStartsWith q.1 "FrameKey") rest := by
          exact List.find?_cons_of_neg _ (by simp [hk2])
        refine ⟨?_, ?_, ?_⟩
        · intro h
          rw [hfind] at h
          simpa [positionIndexScan, hk2] using ih.1 h
        · intro k f x h hlook
          rw [hfind] at h
          simpa [positionIndexScan, hk2] using ih.2.1 k f x h hlook
        · intro k f h hlook
          rw [hfind] at h
          simpa [positionIndexScan, hk2] using ih.2.2 k f h hlook

/-- Reader whose FIRST FrameKey record lacks the `PositionIndex` field while
a LATER record carries it with value 3. -/
def c9FirstLacksReader : PosReader :=
  { path := "/data/ds/Pos3"
    name := "Pos3"
    channelNames := [.str "DAPI"]
    zSlices := 1
    frames := 2
    positions := .num 1
    width := 2
    height := 2
    pixelType := .str "GRAY8"
    bitDepth := 8
    pixelSizeUm := .num 1
    metadata :=
      [("Summary", .obj [("Slices", .num 1)]),
       ("FrameKey-0-0-0", .obj [("FileName", .str "a.tif")]),
       ("FrameKey-1-0-0", .obj [("PositionIndex", .num 3), ("FileName", .str "b.tif")])] }

/-- Counterexample to claim C9: on a dataset whose first FrameKey record
lacks the position-index field while a later record carries it (value 3),
`position_index()` neither returns that later value nor raises the METADATA
`G2SDataError`; it raises a bare `KeyError`. -/
theorem c9_position_index_counterexample :
    positionIndex c9FirstLacksReader = Except.error (PyErr.keyError "PositionIndex") ∧
    dictLookup [("PositionIndex", Json.num 3), ("FileName", Json.str "b.tif")] "PositionIndex"
      = some (Json.num 3) ∧
    (∀ m, PyErr.keyError "PositionIndex" ≠ PyErr.g2s m) := by
  refine ⟨by rfl, by rfl, ?_⟩
  intro m h
  cases h

/-- Claim C9, amended: `position_index()` returns `int(...)` of the
`PositionIndex` field of the FIRST record whose key starts with
`"FrameKey"`; if that record lacks the field a bare `KeyError` escapes
(later records are never consulted), and the METADATA `G2SDataError` is
raised only when no key starts with `"FrameKey"`. -/
theorem c9_position_index_amended (r : PosReader) :
    (r.metadata.find? (fun p => pyStartsWith p.1 "FrameKey") = none →
      positionIndex r = .error (.g2s "Position index not available in image metadata.")) ∧
    (∀ k f x, r.metadata.find? (fun p => pyStartsWith p.1 "FrameKey") = some (k, Json.obj f) →
      dictLookup f "PositionIndex" = some x → positionIndex r = pyInt x) ∧
    (∀ k f, r.metadata.find? (fun p => pyStartsWith p.1 "FrameKey") = some (k, Json.obj f) →
      dictLookup f "PositionIndex" = none →
      positionIndex r = .error (.keyError "PositionIndex")) :=
  positionIndexScan_spec r.metadata

/-- Reader whose first FrameKey record carries `PositionIndex` 3. -/
def c9CarriesReader : PosReader :=
  { c9FirstLacksReader with
    metadata :=
      [("Summary", .obj [("Slices", .num 1)]),
       ("FrameKey-0-0-0", .obj [("PositionIndex", .num 3), ("FileName", .str "a.tif")])] }

/-- Reader with no FrameKey entry at all. -/
def c9NoFramesReader : PosReader :=
  { c9FirstLacksReader with metadata := [("Summary", .obj [("Slices", .num 1)])] }

/-- Witness for the amended C9, discharging each hypothesis at concrete
readers. -/
theorem c9_position_index_amended_witness :
    positionIndex c9CarriesReader = pyInt (Json.num 3) ∧
    positionIndex c9NoFramesReader
      = .error (.g2s "Position index not available in image metadata.") := by
  constructor
  · exact (c9_position_index_amended c9CarriesReader).2.1 "FrameKey-0-0-0"
      [("PositionIndex", Json.num 3), ("FileName", Json.str "a.tif")] (Json.num 3)
      (by rfl) (by rfl)
  · exact (c9_position_index_amended c9NoFramesReader).1 (by rfl)

/-- Sparse single-channel reader: shape declares frames 0 and 1 but only
frame 0 has an image record. -/
def c3SparseReader : PosReader :=
  { path := "/data/ds/Pos-0"
    name := "Pos-0"
    channelNames := [.str "DAPI"]
    zSlices := 1
    frames := 2
    positions := .num 1
    width := 2
    height := 2
    pixelType := .str "GRAY8"
    bitDepth := 8
    pixelSizeUm := .num 1
    metadata :=
      [("Summary", .obj [("Slices", .num 1)]),
       ("FrameKey-0-0-0",
        .obj [("FileName", .str "img_000000000_DAPI_000.tif"), ("PositionIndex", .num 0)])] }

/-- Counterexample to claim C3: for the in-range but absent coordinate
(channel 0, slice 0, frame 1), `image_pixels` does not fail with the
METADATA-classified `G2SDataError` that `image_metadata` uses; the probe is
unguarded and a bare `KeyError` escapes. -/
theorem c3_error_classification_counterexample :
    coordsValid c3SparseReader 0 0 1 = true ∧
    imagePixels c3SparseReader [] 0 "" 0 1 = Except.error (PyErr.keyError "FrameKey-1-0-0") ∧
    (∀ m, PyErr.keyError "FrameKey-1-0-0" ≠ PyErr.g2s m) := by
  refine ⟨by rfl, by rfl, ?_⟩
  intro m h
  cases h

/-- Claim C3, amended: with the channel given by index (empty name), an
out-of-range coordinate fails both calls with the INVALID_COORDINATE
`G2SDataError`; on in-range coordinates whose key is absent,
`image_metadata` fails with the METADATA `G2SDataError` while `image_pixels`
raises a bare `KeyError`; a present key makes the `image_metadata` lookup
succeed. -/
theorem c3_error_classification_amended (r : PosReader)
    (storage : List (String × NpArray)) (ci z t : Int) :
    (coordsValid r ci z t = false →
      imageMetadata r ci "" z t = .error (.g2s (invalidCoordMsg ci z t)) ∧
      imagePixels r storage ci "" z t = .error (.g2s (invalidCoordMsg ci z t))) ∧
    (coordsValid r ci z t = true →
      dictLookup r.metadata (get_frame_key ci z t) = none →
      imageMetadata r ci "" z t
        = .error (.g2s ("Frame key not available in metadata: " ++ get_frame_key ci z t)) ∧
      imagePixels r storage ci "" z t = .error (.keyError (get_frame_key ci z t))) ∧
    (∀ md, coordsValid r ci z t = true →
      dictLookup r.metadata (get_frame_key ci z t) = some md →
      imageMetadata r ci "" z t = .ok md) := by
  have hch : getChannelIndex r ci "" = .ok ci := by
    simp [getChannelIndex]
  refine ⟨?_, ?_, ?_⟩
  · intro hv
    constructor
    · simp [imageMetadata, hch, hv, Bind.bind, Except.bind]
    · simp [imagePixels, hch, hv, Bind.bind, Except.bind]
  · intro hv hlook
    constructor
    · simp [imageMetadata, hch, hv, hlook, Bind.bind, Except.bind]
    · simp [imagePixels, hch, hv, hlook, Bind.bind, Except.bind]
  · intro md hv hlook
    simp [imageMetadata, hch, hv, hlook, Bind.bind, Except.bind]

/-- Witness for the amended C3, discharging each hypothesis at concrete
inputs on the sparse reader. -/
theorem c3_error_classification_amended_witness :
    (imageMetadata c3SparseReader 5 "" 0 0 = .error (.g2s (invalidCoordMsg 5 0 0)) ∧
      imagePixels c3SparseReader [] 5 "" 0 0 = .error (.g2s (invalidCoordMsg 5 0 0))) ∧
    (imageMetadata c3SparseReader 0 "" 0 1
        = .error (.g2s ("Frame key not available in metadata: " ++ get_frame_key 0 0 1)) ∧
      imagePixels c3SparseReader [] 0 "" 0 1 = .error (.keyError (get_frame_key 0 0 1))) ∧
    imageMetadata c3SparseReader 0 "" 0 0
      = .ok (.obj [("FileName", .str "img_000000000_DAPI_000.tif"), ("PositionIndex", .num 0)]) := by
  refine ⟨?_, ?_, ?_⟩
  · exact (c3_error_classification_amended c3SparseReader [] 5 0 0).1 (by rfl)
  · exact (c3_error_classification_amended c3SparseReader [] 0 0 1).2.1 (by rfl) (by rfl)
  · exact (c3_error_classification_amended c3SparseReader [] 0 0 0).2.2
      (.obj [("FileName", .str "img_000000000_DAPI_000.tif"), ("PositionIndex", .num 0)])
      (by rfl) (by rfl)

/-- Two-channel reader with an image record and a distinct file per
channel. -/
def c7TwoChannelReader : PosReader :=
  { path := "/data/ds/Pos-0"
    name := "Pos-0"
    channelNames := [.str "DAPI", .str "Cy5"]
    zSlices := 1
    frames := 1
    positions := .num 1
    width := 2
    height := 2
    pixelType := .str "GRAY8"
    bitDepth := 8
    pixelSizeUm := .num 1
    metadata :=
      [("Summary", .obj [("Slices", .num 1)]),
       ("FrameKey-0-0-0", .obj [("FileName", .str "img_000000000_DAPI_000.tif")]),
       ("FrameKey-0-1-0", .obj [("FileName", .str "img_000000000_Cy5_000.tif")])] }

/-- Pixels stored in the DAPI (channel 0) image file. -/
def c7DapiPixels : NpArray := { dtype := "uint8", shape := [2, 2], data := [0, 0, 0, 0] }

/-- Pixels stored in the Cy5 (channel 1) image file. -/
def c7Cy5Pixels : NpArray := { dtype := "uint8", shape := [2, 2], data := [9, 9, 9, 9] }

/-- Backing store for the two image files of `c7TwoChannelReader`. -/
def c7Storage : List (String × NpArray) :=
  [("/data/ds/Pos-0/img_000000000_DAPI_000.tif", c7DapiPixels),
   ("/data/ds/Pos-0/img_000000000_Cy5_000.tif", c7Cy5Pixels)]

/-- Claim C7, evaluated at the failing input: resolving the name Cy5 returns
index 1 and an absent name fails with the INVALID_COORDINATE error, as
claimed; but `image_pixels(channel_name=Cy5)` builds the frame key from the
raw `channel_index` parameter (default 0) instead of the resolved index, so
it returns the pixels of the channel 0 (DAPI) file, different from what
`image_pixels(channel_index=1)` returns. -/
theorem c7_channel_name_resolution_bug :
    getChannelIndex c7TwoChannelReader 0 "Cy5" = .ok 1 ∧
    getChannelIndex c7TwoChannelReader 0 "Nope"
      = .error (.g2s "Invalid channel name: Nope") ∧
    imagePixels c7TwoChannelReader c7Storage 0 "Cy5" 0 0 = .ok c7DapiPixels ∧
    imagePixels c7TwoChannelReader c7Storage 1 "" 0 0 = .ok c7Cy5Pixels ∧
    c7DapiPixels ≠ c7Cy5Pixels := by
  refine ⟨by rfl, by rfl, by rfl, by rfl, by decide⟩

/-- Existing dataset directory whose listing yields a stray file first and a
genuine position subdirectory (with sidecar) second. -/
def c6FirstFileDir : DsDirState :=
  { pathExists := true
    isDir := true
    entries :=
      [{ name := "notes.txt", isSubdir := false, hasMetadataFile := false },
       { name := "Pos0", isSubdir := true, hasMetadataFile := true }] }

/-- Counterexample to claim C6: this directory contains a subdirectory with
a `metadata.txt` sidecar, yet `open(..., overwrite=True)` refuses to delete
it, because the guard probes only the FIRST entry of the listing (here the
stray file). -/
theorem c6_overwrite_guard_counterexample :
    c6FirstFileDir.entries.any (fun e => e.isSubdir && e.hasMetadataFile) = true ∧
    dsWriterOpenOverwrite c6FirstFileDir true "/data/WriteTest"
      = .error (.g2s "Can t find metadata.txt, so we can t overwrite: /data/WriteTest") := by
  exact ⟨by rfl, by rfl⟩

/-- Claim C6, amended: with `overwrite` set against an existing directory,
the recursive delete happens if and only if the FIRST entry of the
directory listing has a `metadata.txt` under it (listing order and entry
kind are what matter, not the existence of some qualifying subdirectory),
and an empty directory is refused. -/
theorem c6_overwrite_guard_amended (st : DsDirState) (dsDir : String)
    (hex : st.pathExists = true) (hdir : st.isDir = true) :
    (dsWriterOpenOverwrite st true dsDir = .ok .deletedAndCreated ↔
      ∃ e rest, st.entries = e :: rest ∧ e.hasMetadataFile = true) ∧
    (st.entries = [] →
      dsWriterOpenOverwrite st true dsDir
        = .error (.g2s ("Doesn t look like dataset path so we can t overwrite: " ++ dsDir))) := by
  constructor
  · constructor
    · intro h
      cases hent : st.entries with
      | nil => simp [dsWriterOpenOverwrite, hex, hdir, hent] at h
      | cons e rest =>
          refine ⟨e, rest, rfl, ?_⟩
          by_cases hmd : e.hasMetadataFile = true
          · exact hmd
          · simp [dsWriterOpenOverwrite, hex, hdir, hent, hmd] at h
    · rintro ⟨e, rest, hent, hmd⟩
      simp [dsWriterOpenOverwrite, hex, hdir, hent, hmd]
  · intro hent
    simp [dsWriterOpenOverwrite, hex, hdir, hent]

/-- Existing directory that does look like a dataset (first entry is a
position folder with sidecar). -/
def c6LooksLikeDs : DsDirState :=
  { pathExists := true
    isDir := true
    entries := [{ name := "Pos0", isSubdir := true, hasMetadataFile := true }] }

/-- Existing plain empty directory. -/
def c6EmptyDir : DsDirState :=
  { pathExists := true, isDir := true, entries := [] }

/-- Witness for the amended C6, at a dataset-like directory and at an empty
directory. -/
theorem c6_overwrite_guard_amended_witness :
    dsWriterOpenOverwrite c6LooksLikeDs true "/data/WriteTest" = .ok .deletedAndCreated ∧
    dsWriterOpenOverwrite c6EmptyDir true "/data/WriteTest"
      = .error (.g2s "Doesn t look like dataset path so we can t overwrite: /data/WriteTest") := by
  constructor
  · exact (c6_overwrite_guard_amended c6LooksLikeDs "/data/WriteTest" rfl rfl).1.mpr
      ⟨{ name := "Pos0", isSubdir := true, hasMetadataFile := true }, [], rfl, rfl⟩
  · exact (c6_overwrite_guard_amended c6EmptyDir "/data/WriteTest" rfl rfl).2 rfl

set_option maxHeartbeats 1000000 in
theorem posAddImageRest_fails (s : PosWriterState) (pos ch z f : Int)
    (am : Option (List (String × Json))) (u : String) (wr : Bool) :
    ((posAddImageRest s pos ch z f am u wr).2).isOk = false := by
  unfold posAddImageRest
  repeat' split
  all_goals first | rfl | simp_all [get_frame_key_call]

set_option maxHeartbeats 1000000 in
theorem posAddImage_fails (s : PosWriterState) (px : NpArray) (pos ch z f : Int)
    (am : Option (List (String × Json))) (u : String) (wr : Bool) :
    ((posAddImage s px pos ch z f am u wr).2).isOk = false := by
  unfold posAddImage
  repeat' first
    | apply posAddImageRest_fails
    | rfl
    | split
    | dsimp only []

/-- The writer state after `open` on a fresh directory with 1 position, 1
channel, 1 slice, 1 frame. -/
def c8OpenedState : PosWriterState :=
  { path := some "/data/WriteTest"
    name := some "Pos-0"
    zSlices := 1
    channelDefs := [{ name := "Channel-0", color := 0 }]
    frames := 1
    positions := 1
    width := 0
    height := 0
    pixelType := "NONE"
    numComponents := 1
    bitDepth := 0
    pixelSizeUm := .num 1
    summaryMeta := some []
    meta := some []
    additionalSummaryMeta := []
    timeFirst := true
    slicesFirst := false
    uuid := "uuid-0"
    computerName := "host"
    userName := "user"
    metaVersion := 9 }

/-- The same writer after `close()`. -/
def c8ClosedState : PosWriterState :=
  { c8OpenedState with meta := none, summaryMeta := none, path := none, name := none }

/-- Counterexample to claim C8: a writer that is opened (never initialized)
and then closed accepts a subsequent `initialize` call — it succeeds rather
than failing with a lifecycle error, because `close()` clears only the
metadata dicts, path and name, and `initialize` guards only on
width/height/pixel type. -/
theorem c8_lifecycle_counterexample :
    posOpen (posWriterInit "uuid-0" "host" "user") false "/data/WriteTest" "Pos-0" 1 1 1 1 none
      = .ok c8OpenedState ∧
    posClose c8OpenedState = (c8ClosedState, .ok ()) ∧
    posInitDims c8ClosedState 4 3 "GRAY8" 8 1
      = .ok { c8ClosedState with
          width := 4, height := 3, pixelType := "GRAY8", bitDepth := 8, numComponents := 1 } := by
  refine ⟨by rfl, by rfl, by rfl⟩

/-- Claim C8, amended: `initialize` fails on repetition once any of width,
height or pixel type is set; `close()` clears the metadata dicts, path and
name; after that, `save_metadata` and a second `close` fail (with an
unclassified `TypeError` from the cleared path, not a dedicated lifecycle
error), `add_image` fails (it always does, already at the frame-key call),
and `initialize` is NOT guarded: with width, height and pixel type still
unset it succeeds even on a closed writer. -/
theorem c8_lifecycle_amended :
    (∀ s w h pt bd nc, ¬ (s.width = 0 ∧ s.height = 0 ∧ s.pixelType = "NONE") →
      posInitDims s w h pt bd nc = .error (.g2s "Dataset dimensions are already defined")) ∧
    (∀ s p n, s.path = some p → s.name = some n →
      posClose s = ({ s with meta := none, summaryMeta := none, path := none, name := none },
        .ok ())) ∧
    (∀ s, s.path = none →
      (saveMetadata s).isOk = false ∧ ((posClose s).2).isOk = false) ∧
    (∀ s px pos ch z f am u wr, ((posAddImage s px pos ch z f am u wr).2).isOk = false) ∧
    (∀ s w h pt bd nc, s.width = 0 → s.height = 0 → s.pixelType = "NONE" →
      (posInitDims s w h pt bd nc).isOk = true) := by
  refine ⟨?_, ?_, ?_, ?_, ?_⟩
  · intro s w h pt bd nc hset
    have hcond : s.width ≠ 0 ∨ s.height ≠ 0 ∨ s.pixelType ≠ "NONE" := by
      by_contra hc
      push_neg at hc
      exact hset ⟨hc.1, hc.2.1, hc.2.2⟩
    simp [posInitDims, hcond]
  · intro s p n hp hn
    simp [posClose, saveMetadata, hp, hn]
  · intro s hp
    constructor
    · simp [saveMetadata, hp, Except.isOk, Except.toBool]
    · simp [posClose, saveMetadata, hp, Except.isOk, Except.toBool]
  · intro s px pos ch z f am u wr
    exact posAddImage_fails s px pos ch z f am u wr
  · intro s w h pt bd nc hw hh hpt
    simp [posInitDims, hw, hh, hpt, Except.isOk, Except.toBool]

/-- Witness for the amended C8, discharging each hypothesis at the concrete
opened and closed writer states. -/
theorem c8_lifecycle_amended_witness :
    posInitDims { c8OpenedState with width := 4, height := 3, pixelType := "GRAY8" } 4 3
        "GRAY8" 8 1 = .error (.g2s "Dataset dimensions are already defined") ∧
    posClose c8OpenedState = (c8ClosedState, .ok ()) ∧
    ((saveMetadata c8ClosedState).isOk = false ∧ ((posClose c8ClosedState).2).isOk = false) ∧
    ((posAddImage c8ClosedState { dtype := "uint8", shape := [2, 2], data := [0, 0, 0, 0] }
        0 0 0 0 none "u" true).2).isOk = false ∧
    (posInitDims c8ClosedState 4 3 "GRAY8" 8 1).isOk = true := by
  refine ⟨?_, ?_, ?_, ?_, ?_⟩
  · exact c8_lifecycle_amended.1 _ 4 3 "GRAY8" 8 1 (by simp [c8OpenedState])
  · exact c8_lifecycle_amended.2.1 c8OpenedState "/data/WriteTest" "Pos-0" rfl rfl
  · exact c8_lifecycle_amended.2.2.1 c8ClosedState rfl
  · exact c8_lifecycle_amended.2.2.2.1 c8ClosedState _ 0 0 0 0 none "u" true
  · exact c8_lifecycle_amended.2.2.2.2 c8ClosedState 4 3 "GRAY8" 8 1 rfl rfl rfl

/-- Dataset writer state after `open("/data", "WriteTest", 1, 1, 1, 1)` on a
fresh path. -/
def c1OpenedWriter : DsWriterState :=
  { numberOfComponents := 1
    positions := [none]
    rootPath := some "/data"
    name := some "WriteTest"
    channelDefs := [{ name := "Channel-0", color := 0 }]
    zSlices := 1
    frames := 1
    additionalSummaryMeta := []
    pixelType := "NONE"
    width := 0
    height := 0
    bitDepth := 0
    pixSizeUm := .num 1 }

/-- The same writer after `initialize(2, 2, GRAY8, 8)`. -/
def c1ReadyWriter : DsWriterState :=
  { c1OpenedWriter with width := 2, height := 2, pixelType := "GRAY8", bitDepth := 8 }

/-- A valid 2 by 2 8-bit image. -/
def c1Pixels : NpArray := { dtype := "uint8", shape := [2, 2], data := [0, 1, 2, 3] }

/-- Claim C1, evaluated at the failing input: a dataset opened and
initialized through `DatasetWriter` crashes on the very first valid
`add_image` call with a `TypeError`, because `PosDatasetWriter.add_image`
passes 4 coordinates to the 3-parameter `get_frame_key`; and no
`add_image` call on any state can succeed, so no dataset is ever written
and the write/read round trip is impossible. -/
theorem c1_roundtrip_code_bug :
    dsOpen dsWriterInit { pathExists := false, isDir := false, entries := [] }
        "/data" "WriteTest" 1 1 1 1 false none = .ok c1OpenedWriter ∧
    dsInitDims c1OpenedWriter 2 2 "GRAY8" 8 = .ok c1ReadyWriter ∧
    (dsAddImage c1ReadyWriter c1Pixels 0 "" 0 0 0 none "uuid-pos" "host" "user" "uuid-img"
        true false).2
      = .error (.typeError "get_frame_key() takes 3 positional arguments but 4 were given") ∧
    (∀ s px pos ch z f am u wr, ((posAddImage s px pos ch z f am u wr).2).isOk = false) := by
  refine ⟨by rfl, by rfl, by rfl, ?_⟩
  intro s px pos ch z f am u wr
  exact posAddImage_fails s px pos ch z f am u wr

/-- Unfolding lemma: dict lookup on a cons cell. -/
theorem dictLookup_cons (x : String) (y : Json) (rest : List (String × Json)) (k : String) :
    dictLookup ((x, y) :: rest) k = if x = k then some y else dictLookup rest k := by
  by_cases h : x = k
  · simp [dictLookup, List.find?, h]
  · have hb : (x == k) = false := by
      simpa using h
    simp [dictLookup, List.find?, hb, h]

/-- In-place update of key `a` does not affect lookups of a different key. -/
theorem dictLookup_map_set (a k : String) (v : Json) (h : a ≠ k) :
    ∀ m : List (String × Json),
      dictLookup (m.map (fun p => if p.1 == a then (a, v) else p)) k = dictLookup m k
  | [] => rfl
  | (x, y) :: rest => by
      rw [List.map_cons]
      by_cases hxa : x = a
      · have hc : ((x, y).1 == a) = true := by simpa using hxa
        rw [if_pos hc, dictLookup_cons, dictLookup_cons, if_neg h,
          if_neg (fun hk => h (hxa ▸ hk))]
        exact dictLookup_map_set a k v h rest
      · have hc : ¬ (((x, y).1 == a) = true) := by simpa using hxa
        rw [if_neg hc, dictLookup_cons, dictLookup_cons]
        by_cases hxk : x = k
        · rw [if_pos hxk, if_pos hxk]
        · rw [if_neg hxk, if_neg hxk]
          exact dictLookup_map_set a k v h rest

/-- Appending an entry for key `a` does not affect lookups of a different
key. -/
theorem dictLookup_append_single (a k : String) (v : Json) (h : a ≠ k) :
    ∀ m : List (String × Json), dictLookup (m ++ [(a, v)]) k = dictLookup m k
  | [] => by
      rw [List.nil_append, dictLookup_cons, if_neg h]
  | (x, y) :: rest => by
      rw [List.cons_append, dictLookup_cons, dictLookup_cons]
      by_cases hxk : x = k
      · rw [if_pos hxk, if_pos hxk]
      · rw [if_neg hxk, if_neg hxk]
        exact dictLookup_append_single a k v h rest

/-- Setting one key of a dict leaves every other key unchanged. -/
theorem dictLookup_dictSet_ne (m : List (String × Json)) (a : String) (v : Json)
    (k : String) (h : k ≠ a) : dictLookup (dictSet m a v) k = dictLookup m k := by
  unfold dictSet
  split
  · exact dictLookup_map_set a k v (fun hc => h hc.symm) m
  · exact dictLookup_append_single a k v (fun hc => h hc.symm) m

/-- Lookup through an optional metadata dict (the writer metadata after
`close` is `None`). -/
def metaLookup (m : Option (List (String × Json))) (k : String) : Option Json :=
  match m with
  | none => none
  | some d => dictLookup d k

set_option maxHeartbeats 1000000 in
theorem posAddImageRest_meta (s : PosWriterState) (pos ch z f : Int)
    (am : Option (List (String × Json))) (u : String) (wr : Bool) :
    (posAddImageRest s pos ch z f am u wr).1.meta = s.meta := by
  unfold posAddImageRest
  repeat' split
  all_goals first | rfl | simp_all [get_frame_key_call]

/-- A position writer opened and initialized (2 by 2 GRAY8), with an empty
accumulated metadata dict, ready for `add_image`. -/
def c2ReadyState : PosWriterState :=
  { path := some "/data/WriteTest"
    name := some "Pos-0"
    zSlices := 1
    channelDefs := [{ name := "Channel-0", color := 0 }]
    frames := 1
    positions := 1
    width := 2
    height := 2
    pixelType := "GRAY8"
    numComponents := 1
    bitDepth := 8
    pixelSizeUm := .num 1
    summaryMeta := some []
    meta := some []
    additionalSummaryMeta := []
    timeFirst := true
    slicesFirst := false
    uuid := "uuid-0"
    computerName := "host"
    userName := "user"
    metaVersion := 9 }

/-- A valid 2 by 2 8-bit image for `c2ReadyState`. -/
def c2Pixels : NpArray := { dtype := "uint8", shape := [2, 2], data := [0, 1, 2, 3] }

/-- Counterexample to claim C2: a fully valid `add_image` call on a writer
in writing state fails (at the frame-key call), yet the accumulated
metadata dict is mutated by the call — the summary block has been inserted
under the key `Summary` before the failure point. -/
theorem c2_atomicity_counterexample :
    ((posAddImage c2ReadyState c2Pixels 0 0 0 0 none "uuid-img" true).2).isOk = false ∧
    (posAddImage c2ReadyState c2Pixels 0 0 0 0 none "uuid-img" true).1.meta
      ≠ c2ReadyState.meta ∧
    (metaLookup (posAddImage c2ReadyState c2Pixels 0 0 0 0 none "uuid-img" true).1.meta
      "Summary").isSome = true := by
  refine ⟨by rfl, by decide, by rfl⟩

set_option maxHeartbeats 1000000 in
/-- Claim C2, amended: `add_image` never fully succeeds (the frame-key call
always raises), and a failing call changes the accumulated metadata dict in
at most the `Summary` key — every other key reads the same before and after
the call (the image record itself is never inserted).  Together with the
counterexample this shows the only mutation a failing call makes is the
summary materialization. -/
theorem c2_add_image_not_atomic_amended (s : PosWriterState) (px : NpArray)
    (pos ch z f : Int) (am : Option (List (String × Json))) (u : String) (wr : Bool) :
    ((posAddImage s px pos ch z f am u wr).2).isOk = false ∧
    ∀ k, k ≠ "Summary" →
      metaLookup (posAddImage s px pos ch z f am u wr).1.meta k = metaLookup s.meta k := by
  refine ⟨posAddImage_fails s px pos ch z f am u wr, ?_⟩
  intro k hk
  unfold posAddImage
  repeat' first
    | split
    | dsimp only []
  all_goals try rw [posAddImageRest_meta]
  all_goals first
    | rfl
    | simp_all [metaLookup, dictLookup_dictSet_ne]

/-- Witness for the amended C2: at the concrete ready state, the call fails
and a non-Summary key (the would-be image record key) is unchanged. -/
theorem c2_add_image_not_atomic_amended_witness :
    ((posAddImage c2ReadyState c2Pixels 0 0 0 0 none "uuid-img" true).2).isOk = false ∧
    metaLookup (posAddImage c2ReadyState c2Pixels 0 0 0 0 none "uuid-img" true).1.meta
      "FrameKey-0-0-0" = metaLookup c2ReadyState.meta "FrameKey-0-0-0" := by
  refine ⟨(c2_add_image_not_atomic_amended c2ReadyState c2Pixels 0 0 0 0 none
    "uuid-img" true).1, ?_⟩
  exact (c2_add_image_not_atomic_amended c2ReadyState c2Pixels 0 0 0 0 none
    "uuid-img" true).2 "FrameKey-0-0-0" (by decide)

theorem pyListSet_inRange {α : Type} (l : List α) (i : Int) (x : α)
    (h0 : 0 ≤ i) (hlt : i < (l.length : Int)) :
    pyListSet l i x = .ok (l.set i.toNat x) := by
  simp [pyListSet, h0, hlt]

theorem pyListSet_wrap {α : Type} (l : List α) (i : Int) (x : α)
    (hge : -(l.length : Int) ≤ i) (hneg : i < 0) :
    pyListSet l i x = .ok (l.set (i + l.length).toNat x) := by
  have h1 : ¬ (0 ≤ i ∧ i < (l.length : Int)) := by omega
  simp [pyListSet, h1, hge, hneg]

theorem pyListSet_outOfRange {α : Type} (l : List α) (i : Int) (x : α)
    (h : i < -(l.length : Int) ∨ (l.length : Int) ≤ i) :
    pyListSet l i x = .error (.indexError "list assignment index out of range") := by
  have h1 : ¬ (0 ≤ i ∧ i < (l.length : Int)) := by omega
  have h2 : ¬ (-(l.length : Int) ≤ i ∧ i < 0) := by omega
  simp [pyListSet, h1, h2]

/-- Test whether a reader recovers position index `k`. -/
def hasPosIdx (k : Int) (r : PosReader) : Bool :=
  match positionIndex r with
  | .ok j => j == k
  | .error _ => false

theorem hasPosIdx_iff (k : Int) (r : PosReader) :
    hasPosIdx k r = true ↔ positionIndex r = .ok k := by
  unfold hasPosIdx
  cases h : positionIndex r <;> simp

/-- Behaviour of the `DatasetReader._load_meta` placement loop: when every
reader recovers an index in `[0, slots)` and recovered indices are unique,
the fold succeeds, and slot `k` holds the reader with recovered index `k`
(or keeps its initial value when no reader maps to `k`). -/
theorem buildAux_spec :
    ∀ (rs : List PosReader) (acc : List (Option PosReader)),
    (∀ r ∈ rs, ∃ i : Int, positionIndex r = .ok i ∧ 0 ≤ i ∧ i < (acc.length : Int)) →
    (∀ r ∈ rs, ∀ r2 ∈ rs, ∀ i : Int,
      positionIndex r = .ok i → positionIndex r2 = .ok i → r = r2) →
    ∃ res, List.foldlM placePosition acc rs = .ok res ∧ res.length = acc.length ∧
      (∀ k : Nat, k < acc.length → ∀ r, rs.find? (hasPosIdx (k : Int)) = some r →
        res[k]? = some (some r)) ∧
      (∀ k : Nat, k < acc.length → rs.find? (hasPosIdx (k : Int)) = none →
        res[k]? = acc[k]?)
  | [], acc, _, _ => by
      refine ⟨acc, by simp [List.foldlM_nil, pure, Except.pure], rfl, ?_, ?_⟩
      · intro k hk r hfind
        simp at hfind
      · intro k hk hfind
        rfl
  | r :: rest, acc, hres, hinj => by
      obtain ⟨i, hok, h0, hlt⟩ := hres r (List.mem_cons_self r rest)
      have hstep : placePosition acc r = .ok (acc.set i.toNat (some r)) := by
        simp [placePosition, hok, pyListSet_inRange acc i (some r) h0 hlt,
          Bind.bind, Except.bind]
      have hlenset : (acc.set i.toNat (some r)).length = acc.length := by simp
      have hres2 : ∀ x ∈ rest, ∃ j : Int, positionIndex x = .ok j ∧ 0 ≤ j ∧
          j < ((acc.set i.toNat (some r)).length : Int) := by
        intro x hx
        obtain ⟨j, a, b, c⟩ := hres x (List.mem_cons_of_mem r hx)
        exact ⟨j, a, b, by simpa [hlenset] using c⟩
      have hinj2 : ∀ x ∈ rest, ∀ y ∈ rest, ∀ j : Int,
          positionIndex x = .ok j → positionIndex y = .ok j → x = y :=
        fun x hx y hy => hinj x (List.mem_cons_of_mem r hx) y (List.mem_cons_of_mem r hy)
      obtain ⟨res, hfold, hlen, hsome, hnone⟩ :=
        buildAux_spec rest (acc.set i.toNat (some r)) hres2 hinj2
      refine ⟨res, ?_, by simpa [hlenset] using hlen, ?_, ?_⟩
      · simp [List.foldlM_cons, hstep, Bind.bind, Except.bind, hfold]
      · intro k hk r2 hfind
        by_cases hkr : hasPosIdx (k : Int) r = true
        · have hcons : (r :: rest).find? (hasPosIdx (k : Int)) = some r :=
            List.find?_cons_of_pos rest hkr
          rw [hcons] at hfind
          obtain rfl := Option.some.inj hfind
          have hik : i = (k : Int) := by
            have h2 := (hasPosIdx_iff (k : Int) r).mp hkr
            rw [hok] at h2
            exact Except.ok.inj h2
          cases hfind2 : rest.find? (hasPosIdx (k : Int)) with
          | some r3 =>
              have hres3 := hsome k (by simpa [hlenset] using hk) r3 hfind2
              have hr3mem := List.mem_of_find?_eq_some hfind2
              have hr3idx : positionIndex r3 = .ok (k : Int) :=
                (hasPosIdx_iff (k : Int) r3).mp (List.find?_some hfind2)
              have heq : r = r3 :=
                hinj r (List.mem_cons_self r rest) r3 (List.mem_cons_of_mem r hr3mem)
                  (k : Int) (hik ▸ hok) hr3idx
              rw [hres3, ← heq]
          | none =>
              have hres3 := hnone k (by simpa [hlenset] using hk) hfind2
              rw [hres3]
              have hkt : i.toNat = k := by omega
              rw [hkt]
              exact List.getElem?_set_eq_of_lt (some r) hk
        · have hcons : (r :: rest).find? (hasPosIdx (k : Int))
              = rest.find? (hasPosIdx (k : Int)) := by
            exact List.find?_cons_of_neg rest (by simpa using hkr)
          rw [hcons] at hfind
          exact hsome k (by simpa [hlenset] using hk) r2 hfind
      · intro k hk hfind
        have hall := List.find?_eq_none.mp hfind
        have hrestnone : rest.find? (hasPosIdx (k : Int)) = none :=
          List.find?_eq_none.mpr (fun x hx => hall x (List.mem_cons_of_mem r hx))
        have hrk : ¬ hasPosIdx (k : Int) r = true := hall r (List.mem_cons_self r rest)
        have hres3 := hnone k (by simpa [hlenset] using hk) hrestnone
        rw [hres3]
        have hik : i ≠ (k : Int) := by
          intro hc
          exact hrk ((hasPosIdx_iff (k : Int) r).mpr (hc ▸ hok))
        have hkt : i.toNat ≠ k := by omega
        exact List.getElem?_set_ne hkt

/-- On lists where at most one element (up to equality) satisfies the
predicate, `find?` is invariant under permutation. -/
theorem find?_perm_of_unique {α : Type} (p : α → Bool) {l l2 : List α}
    (hperm : l.Perm l2)
    (huniq : ∀ a ∈ l, ∀ b ∈ l, p a = true → p b = true → a = b) :
    l.find? p = l2.find? p := by
  cases h : l.find? p with
  | none =>
      have hall := List.find?_eq_none.mp h
      exact (List.find?_eq_none.mpr (fun x hx => hall x (hperm.mem_iff.mpr hx))).symm
  | some a =>
      have hpa : p a = true := List.find?_some h
      have hmem : a ∈ l := List.mem_of_find?_eq_some h
      cases h2 : l2.find? p with
      | none =>
          exact absurd hpa ((List.find?_eq_none.mp h2) a (hperm.mem_iff.mp hmem))
      | some b =>
          have hpb : p b = true := List.find?_some h2
          have hbmem : b ∈ l := hperm.mem_iff.mpr (List.mem_of_find?_eq_some h2)
          rw [huniq a hmem b hbmem hpa hpb]

/-- Claim C5: when every subdirectory reader recovers a distinct position
index in `[0, number of subdirectories)`, `DatasetReader` construction is
independent of the enumeration order (any permutation of the readers yields
the same positions array), and slot `i` holds exactly the reader whose
recovered `position_index()` is `i`. -/
theorem c5_position_slots_order_independent (path : String) (rs rs2 : List PosReader)
    (hperm : rs.Perm rs2)
    (hres : ∀ r ∈ rs, ∃ i : Int, positionIndex r = .ok i ∧ 0 ≤ i ∧ i < (rs.length : Int))
    (hinj : ∀ r ∈ rs, ∀ r2 ∈ rs, ∀ i : Int,
      positionIndex r = .ok i → positionIndex r2 = .ok i → r = r2) :
    datasetReaderLoad path rs2 = datasetReaderLoad path rs ∧
    (∀ r ∈ rs, ∀ i : Int, positionIndex r = .ok i →
      ∃ res, datasetReaderLoad path rs = .ok res ∧ res[i.toNat]? = some (some r)) := by
  have hlen12 : rs2.length = rs.length := hperm.length_eq.symm
  have hres2 : ∀ r ∈ rs2, ∃ i : Int, positionIndex r = .ok i ∧ 0 ≤ i ∧
      i < (rs2.length : Int) := by
    intro r hr
    obtain ⟨i, a, b, c⟩ := hres r (hperm.mem_iff.mpr hr)
    exact ⟨i, a, b, by rw [hlen12]; exact c⟩
  have hinj2 : ∀ r ∈ rs2, ∀ r2 ∈ rs2, ∀ i : Int,
      positionIndex r = .ok i → positionIndex r2 = .ok i → r = r2 :=
    fun r hr r2 hr2 => hinj r (hperm.mem_iff.mpr hr) r2 (hperm.mem_iff.mpr hr2)
  obtain ⟨res, hfold, hlen, hsome, hnone⟩ :=
    buildAux_spec rs (List.replicate rs.length none)
      (by simpa [List.length_replicate] using hres) hinj
  obtain ⟨res2, hfold2, hlen2, hsome2, hnone2⟩ :=
    buildAux_spec rs2 (List.replicate rs2.length none)
      (by simpa [List.length_replicate] using hres2) hinj2
  have hlenres : res.length = rs.length := by simpa using hlen
  have hlenres2 : res2.length = rs.length := by simpa [hlen12] using hlen2
  have huniqP : ∀ k : Int, ∀ a ∈ rs, ∀ b ∈ rs,
      hasPosIdx k a = true → hasPosIdx k b = true → a = b := by
    intro k a ha b hb hpa hpb
    exact hinj a ha b hb k ((hasPosIdx_iff k a).mp hpa) ((hasPosIdx_iff k b).mp hpb)
  have hfindeq : ∀ k : Int, rs.find? (hasPosIdx k) = rs2.find? (hasPosIdx k) :=
    fun k => find?_perm_of_unique (hasPosIdx k) hperm (huniqP k)
  have hreseq : res2 = res := by
    apply List.ext_getElem?
    intro k
    by_cases hk : k < rs.length
    · cases hfind : rs.find? (hasPosIdx (k : Int)) with
      | some r0 =>
          rw [hsome2 k (by simpa [List.length_replicate, hlen12] using hk) r0
            ((hfindeq (k : Int)) ▸ hfind),
            hsome k (by simpa [List.length_replicate] using hk) r0 hfind]
      | none =>
          rw [hnone2 k (by simpa [List.length_replicate, hlen12] using hk)
            ((hfindeq (k : Int)) ▸ hfind),
            hnone k (by simpa [List.length_replicate] using hk) hfind]
          simp [List.getElem?_replicate, hlen12]
    · rw [List.getElem?_eq_none (by omega : res2.length ≤ k),
        List.getElem?_eq_none (by omega : res.length ≤ k)]
  constructor
  · have hfold2b : List.foldlM placePosition (List.replicate rs.length none) rs2
        = .ok res := by
      rw [← hlen12, hfold2, hreseq]
    simp only [datasetReaderLoad, buildPositions, hlen12, hfold, hfold2b, Bind.bind,
      Except.bind]
  · intro r hr i hoki
    obtain ⟨i2, hok2, h0, hlt⟩ := hres r hr
    obtain rfl : i = i2 := by
      rw [hoki] at hok2
      exact Except.ok.inj hok2
    have hkint : ((i.toNat : Nat) : Int) = i := Int.toNat_of_nonneg h0
    have hkfind : rs.find? (hasPosIdx (i.toNat : Int)) = some r := by
      have hisSome : (rs.find? (hasPosIdx (i.toNat : Int))).isSome := by
        rw [List.find?_isSome]
        exact ⟨r, hr, by rw [hkint]; exact (hasPosIdx_iff i r).mpr hoki⟩
      obtain ⟨r0, hr0⟩ := Option.isSome_iff_exists.mp hisSome
      have hr0mem : r0 ∈ rs := List.mem_of_find?_eq_some hr0
      have hr0idx : positionIndex r0 = .ok i := by
        have h3 := (hasPosIdx_iff (i.toNat : Int) r0).mp (List.find?_some hr0)
        rwa [hkint] at h3
      have hr0r : r0 = r := hinj r0 hr0mem r hr i hr0idx hoki
      rw [hr0, hr0r]
    have hne : ¬ (res.length = 0) := by
      rw [hlenres]
      have hpos : 0 < rs.length := List.length_pos.mpr (by
        intro hc
        rw [hc] at hr
        simp at hr)
      omega
    refine ⟨res, ?_, ?_⟩
    · simp [datasetReaderLoad, buildPositions, hfold, Bind.bind, Except.bind, hne]
    · exact hsome i.toNat
        (by simpa [List.length_replicate] using (by omega : i.toNat < rs.length)) r hkfind

/-- Position reader recovering index 1. -/
def c5ReaderA : PosReader :=
  { path := "/data/ds/SiteA"
    name := "SiteA"
    channelNames := [.str "DAPI"]
    zSlices := 1
    frames := 1
    positions := .num 2
    width := 2
    height := 2
    pixelType := .str "GRAY8"
    bitDepth := 8
    pixelSizeUm := .num 1
    metadata :=
      [("Summary", .obj [("Slices", .num 1)]),
       ("FrameKey-0-0-0", .obj [("PositionIndex", .num 1)])] }

/-- Position reader recovering index 0. -/
def c5ReaderB : PosReader :=
  { c5ReaderA with
    path := "/data/ds/SiteB"
    name := "SiteB"
    metadata :=
      [("Summary", .obj [("Slices", .num 1)]),
       ("FrameKey-0-0-0", .obj [("PositionIndex", .num 0)])] }

/-- Witness for C5: the two listing orders of the two readers produce the
same positions array, and slot 1 holds the reader whose recovered index is
1. -/
theorem c5_position_slots_order_independent_witness :
    datasetReaderLoad "/data/ds" [c5ReaderB, c5ReaderA]
      = datasetReaderLoad "/data/ds" [c5ReaderA, c5ReaderB] ∧
    ∃ res, datasetReaderLoad "/data/ds" [c5ReaderA, c5ReaderB] = .ok res ∧
      res[(1 : Int).toNat]? = some (some c5ReaderA) := by
  have hA : positionIndex c5ReaderA = Except.ok 1 := rfl
  have hB : positionIndex c5ReaderB = Except.ok 0 := rfl
  have hres : ∀ r ∈ [c5ReaderA, c5ReaderB], ∃ i : Int, positionIndex r = .ok i ∧
      0 ≤ i ∧ i < (([c5ReaderA, c5ReaderB] : List PosReader).length : Int) := by
    intro r hr
    simp only [List.mem_cons, List.not_mem_nil, or_false] at hr
    rcases hr with rfl | rfl
    · exact ⟨1, hA, by norm_num, by norm_num⟩
    · exact ⟨0, hB, by norm_num, by norm_num⟩
  have hinj : ∀ r ∈ [c5ReaderA, c5ReaderB], ∀ r2 ∈ [c5ReaderA, c5ReaderB], ∀ i : Int,
      positionIndex r = .ok i → positionIndex r2 = .ok i → r = r2 := by
    intro r hr r2 hr2 i h1 h2
    simp only [List.mem_cons, List.not_mem_nil, or_false] at hr hr2
    rcases hr with rfl | rfl <;> rcases hr2 with rfl | rfl
    · rfl
    · exfalso
      rw [hA] at h1
      rw [hB] at h2
      have e1 := Except.ok.inj h1
      have e2 := Except.ok.inj h2
      omega
    · exfalso
      rw [hB] at h1
      rw [hA] at h2
      have e1 := Except.ok.inj h1
      have e2 := Except.ok.inj h2
      omega
    · rfl
  have h := c5_position_slots_order_independent "/data/ds" [c5ReaderA, c5ReaderB]
    [c5ReaderB, c5ReaderA] (List.Perm.swap c5ReaderB c5ReaderA []) hres hinj
  exact ⟨h.1, h.2 c5ReaderA (by simp) 1 hA⟩

theorem buildAux_ok_wrap :
    ∀ (rs : List PosReader) (acc : List (Option PosReader)),
    (∀ r ∈ rs, ∃ i : Int, positionIndex r = .ok i ∧
      -(acc.length : Int) ≤ i ∧ i < (acc.length : Int)) →
    (List.foldlM placePosition acc rs).isOk = true
  | [], acc, _ => by
      simp [List.foldlM_nil, pure, Except.pure, Except.isOk, Except.toBool]
  | r :: rest, acc, hres => by
      obtain ⟨i, hok, hge, hlt⟩ := hres r (List.mem_cons_self r rest)
      have hres2 : ∀ set0 : List (Option PosReader), set0.length = acc.length →
          ∀ x ∈ rest, ∃ j : Int, positionIndex x = .ok j ∧
            -(set0.length : Int) ≤ j ∧ j < (set0.length : Int) := by
        intro set0 hlen x hx
        obtain ⟨j, a, b, c⟩ := hres x (List.mem_cons_of_mem r hx)
        exact ⟨j, a, by rw [hlen]; exact b, by rw [hlen]; exact c⟩
      by_cases h0 : 0 ≤ i
      · have hstep := pyListSet_inRange acc i (some r) h0 hlt
        have hrec := buildAux_ok_wrap rest (acc.set i.toNat (some r))
          (hres2 _ (by simp))
        simp [List.foldlM_cons, placePosition, hok, hstep, Bind.bind, Except.bind, hrec]
      · have hneg : i < 0 := by omega
        have hstep := pyListSet_wrap acc i (some r) hge hneg
        have hrec := buildAux_ok_wrap rest (acc.set (i + acc.length).toNat (some r))
          (hres2 _ (by simp))
        simp [List.foldlM_cons, placePosition, hok, hstep, Bind.bind, Except.bind, hrec]

theorem buildAux_err :
    ∀ (rs : List PosReader) (acc : List (Option PosReader)),
    (∀ r ∈ rs, ∃ i : Int, positionIndex r = .ok i) →
    (∃ r ∈ rs, ∃ i : Int, positionIndex r = .ok i ∧
      (i < -(acc.length : Int) ∨ (acc.length : Int) ≤ i)) →
    List.foldlM placePosition acc rs
      = .error (.indexError "list assignment index out of range")
  | [], _, _, hex => by
      rcases hex with ⟨r, hr, _⟩
      simp at hr
  | r :: rest, acc, hres, hex => by
      obtain ⟨i, hok⟩ := hres r (List.mem_cons_self r rest)
      by_cases hout : i < -(acc.length : Int) ∨ (acc.length : Int) ≤ i
      · have hstep := pyListSet_outOfRange acc i (some r) hout
        simp [List.foldlM_cons, placePosition, hok, hstep, Bind.bind, Except.bind]
      · have hge : -(acc.length : Int) ≤ i := by omega
        have hlt : i < (acc.length : Int) := by omega
        have hres2 : ∀ x ∈ rest, ∃ j : Int, positionIndex x = .ok j :=
          fun x hx => hres x (List.mem_cons_of_mem r hx)
        have hex2 : ∃ r0 ∈ rest, ∃ j : Int, positionIndex r0 = .ok j ∧
            (j < -(acc.length : Int) ∨ (acc.length : Int) ≤ j) := by
          rcases hex with ⟨r0, hr0, j, hokj, houtj⟩
          rcases List.mem_cons.mp hr0 with rfl | hr0rest
          · exfalso
            rw [hok] at hokj
            have := Except.ok.inj hokj
            omega
          · exact ⟨r0, hr0rest, j, hokj, houtj⟩
        by_cases h0 : 0 ≤ i
        · have hstep := pyListSet_inRange acc i (some r) h0 hlt
          have hrec := buildAux_err rest (acc.set i.toNat (some r)) hres2
            (by simpa [List.length_set] using hex2)
          simp [List.foldlM_cons, placePosition, hok, hstep, Bind.bind, Except.bind, hrec]
        · have hneg : i < 0 := by omega
          have hstep := pyListSet_wrap acc i (some r) hge hneg
          have hrec := buildAux_err rest (acc.set (i + acc.length).toNat (some r)) hres2
            (by simpa [List.length_set] using hex2)
          simp [List.foldlM_cons, placePosition, hok, hstep, Bind.bind, Except.bind, hrec]

/-- Reader recovering the negative position index -1. -/
def c10NegReader : PosReader :=
  { c5ReaderA with
    path := "/data/ds/OnlyPos"
    name := "OnlyPos"
    metadata :=
      [("Summary", .obj [("Slices", .num 1)]),
       ("FrameKey-0-0-0", .obj [("PositionIndex", .num (-1))])] }

/-- Counterexample to claim C10: a dataset with a single subdirectory whose
recovered position index is -1 (outside `[0, 1)`) still constructs
successfully — Python list assignment wraps negative indices, so the claim
that construction succeeds only when every recovered index lies in
`[0, count)` is false. -/
theorem c10_negative_index_counterexample :
    positionIndex c10NegReader = .ok (-1) ∧
    datasetReaderLoad "/data/ds" [c10NegReader] = .ok [some c10NegReader] := by
  exact ⟨by rfl, by rfl⟩

/-- Claim C10, amended: with every subdirectory resolving a position index,
the placement loop of `DatasetReader` construction succeeds precisely for
indices in `[-count, count)` (Python list assignment wraps negatives); any
recovered index at or beyond the subdirectory count (or below `-count`)
fails the construction with an `IndexError`, which is not one of the
format's `G2SDataError` kinds. -/
theorem c10_construction_bounds_amended (rs : List PosReader)
    (hres : ∀ r ∈ rs, ∃ i : Int, positionIndex r = .ok i) :
    ((∀ r ∈ rs, ∀ i : Int, positionIndex r = .ok i →
        -(rs.length : Int) ≤ i ∧ i < (rs.length : Int)) →
      (buildPositions rs).isOk = true) ∧
    ((∃ r ∈ rs, ∃ i : Int, positionIndex r = .ok i ∧
        (i < -(rs.length : Int) ∨ (rs.length : Int) ≤ i)) →
      buildPositions rs = .error (.indexError "list assignment index out of range") ∧
      ∀ path, datasetReaderLoad path rs
        = .error (.indexError "list assignment index out of range")) ∧
    (∀ m, (PyErr.indexError "list assignment index out of range") ≠ PyErr.g2s m) := by
  refine ⟨?_, ?_, ?_⟩
  · intro hin
    apply buildAux_ok_wrap
    intro r hr
    obtain ⟨i, hok⟩ := hres r hr
    exact ⟨i, hok, by simpa [List.length_replicate] using hin r hr i hok⟩
  · intro hex
    have herr := buildAux_err rs (List.replicate rs.length none) hres
      (by simpa [List.length_replicate] using hex)
    have herrB : buildPositions rs
        = .error (.indexError "list assignment index out of range") := herr
    refine ⟨herrB, ?_⟩
    intro path
    simp [datasetReaderLoad, herrB, Bind.bind, Except.bind]
  · intro m h
    cases h

/-- Reader recovering the out-of-bounds position index 5. -/
def c10BigReader : PosReader :=
  { c5ReaderA with
    path := "/data/ds/FarPos"
    name := "FarPos"
    metadata :=
      [("Summary", .obj [("Slices", .num 1)]),
       ("FrameKey-0-0-0", .obj [("PositionIndex", .num 5)])] }

/-- Witness for the amended C10: the single-position dataset with index -1
builds, and the one with index 5 fails with the IndexError. -/
theorem c10_construction_bounds_amended_witness :
    (buildPositions [c10NegReader]).isOk = true ∧
    buildPositions [c10BigReader]
      = .error (.indexError "list assignment index out of range") := by
  have hNeg : positionIndex c10NegReader = Except.ok (-1) := rfl
  have hBig : positionIndex c10BigReader = Except.ok 5 := rfl
  constructor
  · apply (c10_construction_bounds_amended [c10NegReader] ?hres).1 ?hin
    case hres =>
      intro r hr
      simp only [List.mem_cons, List.not_mem_nil, or_false] at hr
      subst hr
      exact ⟨-1, hNeg⟩
    case hin =>
      intro r hr i hok
      simp only [List.mem_cons, List.not_mem_nil, or_false] at hr
      subst hr
      rw [hNeg] at hok
      have h2 := Except.ok.inj hok
      simp only [List.length_cons, List.length_nil]
      omega
  · refine ((c10_construction_bounds_amended [c10BigReader] ?_).2.1 ?_).1
    · intro r hr
      simp only [List.mem_cons, List.not_mem_nil, or_false] at hr
      subst hr
      exact ⟨5, hBig⟩
    · exact ⟨c10BigReader, by simp, 5, hBig, by norm_num⟩
